import Mathlib

/-!
Shallow embedding of the `pay-panel-web-component` repository
(`src/payment-panel.ts`, with the global wrapper in `src/index.ts`).

The component is a bottom-sheet payment selector driven by an imperative
API.  Its state lives in private fields of the `PaymentPanel` class; we
embed those fields in a `Panel` structure and each method as a function
`Panel → Panel` (paired with the list of dispatched `CustomEvent`s where
the method can dispatch).  JavaScript numbers are modelled as `ℚ`
(all arithmetic in the component is exact on the inputs the claims use),
strings as `String`, and the open-ended payment-method records as
association lists from field names to JS values.

DOM-only concerns (style sheets, `requestAnimationFrame`) are outside
the state we track, except for the observables the behaviour depends
on:

* the inline `transform` / overlay `opacity` left by a drag (modelled
  as `Option ℚ`: `none` is the cleared inline style) and the text
  content of the `#amount` element (initially `"0.00"` in the
  template);

* the four numeric observed attributes `close-threshold`,
  `close-threshold-percent`, `velocity-threshold` and
  `password-length`: every setter writes `setAttribute(name,
  String(v))`, which synchronously runs `attributeChangedCallback`;
  unless the attribute already held the same string, the callback
  overwrites the just-assigned field with `parseFloat(newValue) ||
  default` (or `parseInt(newValue) || 6` for the password length).  We
  model each attribute as the `Option ℚ` it stringifies (`none` =
  attribute absent, as after construction); the canonical decimal
  string of a number is injective and `parseFloat` round-trips it, so
  the string-equality guard is value equality and `parseFloat` is the
  identity, while `parseInt` truncates toward zero (exact for the
  plain-decimal strings the clamped values produce).  The two boolean
  observed attributes (`close-on-overlay-click`, `enable-password`)
  echo back exactly the assigned value (`newValue !== 'false'`), so
  they need no modelled state;

* which rendered payment-method row carries the `selected` class
  (`selectedRow`, the row index or `none`): `renderPaymentMethods`
  marks the row whose record is the current selection — row 0 when the
  selection is null — and the confirm handlers resolve the emitted
  method from that row's `data-index`, not from the `selectedMethod`
  field.  Crucially, `setPaymentMethods` renders *before* resetting
  the selection, so right after a list replacement no row is selected.
  JS object identity (`===`) between records is modelled as structural
  equality, exact whenever the records in play are pairwise
  structurally distinct (true for every input used below).
-/


/-- A JavaScript value stored in a payment-method record field. -/
inductive JVal
  | str (s : String)
  | num (q : ℚ)
deriving DecidableEq

/-- JS truthiness for the values we model: `""` and `0` are falsy. -/
def JVal.truthy : JVal → Bool
  | .str s => !(s == "")
  | .num q => !(q == 0)

/-- `String(x)` for the values we model. -/
def JVal.toDisplayString : JVal → String
  | .str s => s
  | .num q => if q.den = 1 then toString q.num else toString q

/-- `interface PaymentMethod { [key: string]: any }`: an open-ended
record, modelled as an association list (first binding wins, like JS
property lookup in our embedding). -/
abbrev PaymentMethod := List (String × JVal)

/-- `interface FieldMapping` from `payment-panel.ts`. -/
structure FieldMapping where
  titleField : Option String := none
  subtitleField : Option String := none
  iconField : Option String := none
  valueField : Option String := none
deriving DecidableEq

/-- `interface PaymentPanelConfig`: the partial configuration record
accepted by `setConfig`. -/
structure PaymentPanelConfig where
  allowSwipeToClose : Option Bool := none
  closeThreshold : Option ℚ := none
  closeThresholdPercent : Option ℚ := none
  velocityThreshold : Option ℚ := none
  closeOnOverlayClick : Option Bool := none
  enablePassword : Option Bool := none
  passwordLength : Option ℚ := none
  headerTitle : Option String := none
deriving DecidableEq

/-- `Required<PaymentPanelConfig>`: a fully resolved configuration. -/
structure RequiredConfig where
  allowSwipeToClose : Bool
  closeThreshold : ℚ
  closeThresholdPercent : ℚ
  velocityThreshold : ℚ
  closeOnOverlayClick : Bool
  enablePassword : Bool
  passwordLength : ℚ
  headerTitle : String
deriving DecidableEq

/-- `DEFAULT_CONFIG` from `payment-panel.ts`. -/
def DEFAULT_CONFIG : RequiredConfig where
  allowSwipeToClose := true
  closeThreshold := 100
  closeThresholdPercent := 0.3
  velocityThreshold := 0.5
  closeOnOverlayClick := true
  enablePassword := false
  passwordLength := 6
  headerTitle := "支付"

/-- `PaymentPanel.DEFAULT_PAYMENT_METHODS`. -/
def DEFAULT_PAYMENT_METHODS : List PaymentMethod :=
  [ [("value", JVal.str "wechat"), ("title", JVal.str "微信支付"),
     ("subtitle", JVal.str "推荐使用"), ("icon", JVal.str "💳")],
    [("value", JVal.str "alipay"), ("title", JVal.str "支付宝"),
     ("subtitle", JVal.str "安全便捷"), ("icon", JVal.str "💰")],
    [("value", JVal.str "card"), ("title", JVal.str "银行卡"),
     ("subtitle", JVal.str "支持各大银行"), ("icon", JVal.str "💵")] ]

/-- `PaymentPanel.DEFAULT_FIELD_MAPPING`. -/
def DEFAULT_FIELD_MAPPING : FieldMapping where
  titleField := some "title"
  subtitleField := some "subtitle"
  iconField := some "icon"
  valueField := some "value"

/-- The `method` value carried by a `payment-confirm` event: the code
computes `selectedMethod?.value || selectedMethod`, so it is either the
record's literal `value` property, the whole record, or `null`. -/
inductive ConfirmMethod
  | nullv
  | val (v : JVal)
  | record (r : PaymentMethod)
deriving DecidableEq

/-- The `detail` of a `payment-confirm` event. -/
structure ConfirmPayload where
  method : ConfirmMethod
  methodData : Option PaymentMethod
  amount : String
  password : Option String
deriving DecidableEq

/-- The `CustomEvent`s the component dispatches. -/
inductive Ev
  | paymentConfirm (detail : ConfirmPayload)
  | paymentClose
deriving DecidableEq

/-- `parseInt` applied to the canonical decimal string of a number:
truncation toward zero. -/
def parseIntNum (q : ℚ) : ℤ :=
  if q < 0 then ⌈q⌉ else ⌊q⌋

/-- A numeric observed-attribute write and its synchronous
`attributeChangedCallback` echo: the setter has just assigned `v` to
the field and calls `setAttribute(name, String(v))`.  If the attribute
already held `String(v)` the callback's `oldValue === newValue` guard
returns and the field keeps `v`; otherwise the callback overwrites the
field with `parseFloat(String(v)) || default`, i.e. `default` when `v`
is `0` and `v` itself otherwise.  Returns the new attribute value and
the field value after the echo. -/
def echoFloatAttr (default : ℚ) (attr : Option ℚ) (v : ℚ) : Option ℚ × ℚ :=
  if attr = some v then (attr, v)
  else (some v, if v = 0 then default else v)

/-- Like `echoFloatAttr` for the `password-length` attribute, whose
callback re-parses with `parseInt(newValue) || 6`: the field becomes
the truncation of `v` (or `default` when that truncation is `0`). -/
def echoIntAttr (default : ℚ) (attr : Option ℚ) (v : ℚ) : Option ℚ × ℚ :=
  if attr = some v then (attr, v)
  else (some v, if parseIntNum v = 0 then default else (parseIntNum v : ℚ))

/-- Which row `renderPaymentMethods` marks with the `selected` class:
`isSelected = this.selectedMethod === method || (index === 0 &&
!this.selectedMethod)` — the (first) row whose record is the current
selection, row 0 when the selection is null, no row otherwise. -/
def renderSelectedRow (methods : List PaymentMethod)
    (selected : Option PaymentMethod) : Option ℕ :=
  match selected with
  | none => if methods.isEmpty then none else some 0
  | some m => methods.findIdx? (fun r => r == m)

/-- The mutable private fields of the `PaymentPanel` class, plus the
DOM observables the behaviour depends on (inline transform, overlay
opacity, amount text, the four numeric observed attributes, and the
index of the rendered row carrying the `selected` class). -/
structure Panel where
  isOpen : Bool
  isDragging : Bool
  startY : ℚ
  currentY : ℚ
  startTime : ℚ
  lastY : ℚ
  lastTime : ℚ
  velocity : ℚ
  allowSwipeToClose : Bool
  closeThreshold : ℚ
  closeThresholdPercent : ℚ
  velocityThreshold : ℚ
  closeOnOverlayClick : Bool
  enablePassword : Bool
  passwordLength : ℚ
  currentPassword : String
  headerTitle : String
  paymentMethods : List PaymentMethod
  fieldMapping : FieldMapping
  selectedMethod : Option PaymentMethod
  hasCustomPaymentMethods : Bool
  panelTransform : Option ℚ
  overlayOpacity : Option ℚ
  amountText : String
  attrCloseThreshold : Option ℚ
  attrCloseThresholdPercent : Option ℚ
  attrVelocityThreshold : Option ℚ
  attrPasswordLength : Option ℚ
  selectedRow : Option ℕ
deriving DecidableEq

/-- `if (this.paymentMethods.length > 0) this.selectedMethod = this.paymentMethods[0]`
(the guard used by the constructor and by `open`, which keep the previous
selection when the list is empty). -/
def selectFirst (ms : List PaymentMethod) (prev : Option PaymentMethod) : Option PaymentMethod :=
  match ms with
  | [] => prev
  | m :: _ => some m

/-- The constructor together with the field initializers and the
`connectedCallback` of an element created without attributes: defaults
for every option, default method list, selection on its first entry,
the template's initial `#amount` text `"0.00"`, no inline drag styles,
no observed attributes yet, and the initial `render()` (which ends in
`renderPaymentMethods()`) marking the selected default row. -/
def initPanel : Panel where
  isOpen := false
  isDragging := false
  startY := 0
  currentY := 0
  startTime := 0
  lastY := 0
  lastTime := 0
  velocity := 0
  allowSwipeToClose := DEFAULT_CONFIG.allowSwipeToClose
  closeThreshold := DEFAULT_CONFIG.closeThreshold
  closeThresholdPercent := DEFAULT_CONFIG.closeThresholdPercent
  velocityThreshold := DEFAULT_CONFIG.velocityThreshold
  closeOnOverlayClick := DEFAULT_CONFIG.closeOnOverlayClick
  enablePassword := DEFAULT_CONFIG.enablePassword
  passwordLength := DEFAULT_CONFIG.passwordLength
  currentPassword := ""
  headerTitle := DEFAULT_CONFIG.headerTitle
  paymentMethods := DEFAULT_PAYMENT_METHODS
  fieldMapping := DEFAULT_FIELD_MAPPING
  selectedMethod := selectFirst DEFAULT_PAYMENT_METHODS none
  hasCustomPaymentMethods := false
  panelTransform := none
  overlayOpacity := none
  amountText := "0.00"
  attrCloseThreshold := none
  attrCloseThresholdPercent := none
  attrVelocityThreshold := none
  attrPasswordLength := none
  selectedRow := renderSelectedRow DEFAULT_PAYMENT_METHODS (selectFirst DEFAULT_PAYMENT_METHODS none)

/-- The decimal digit character for `n % 10`. -/
def digitChar (n : ℕ) : Char := Char.ofNat (48 + n % 10)

/-- The two fractional digits of a cent count `n < 100`. -/
def frac2 (n : ℕ) : String := String.mk [digitChar (n / 10), digitChar n]

/-- `amount.toFixed(2)`: round to an integer number of cents (half away
from the lower value, as the ECMAScript algorithm picks the larger
candidate) and print with exactly two fractional digits. -/
def toFixed2 (q : ℚ) : String :=
  let cents : ℤ := ⌊q * 100 + 1 / 2⌋
  let a : ℕ := cents.natAbs
  (if cents < 0 then "-" else "") ++ toString (a / 100) ++ "." ++ frac2 (a % 100)

/-- `close()`: a no-op when already closed, otherwise clear the drag
state and inline styles, mark closed, and dispatch `payment-close`. -/
def closePanel (s : Panel) : Panel × List Ev :=
  if !s.isOpen then (s, [])
  else
    ({ s with isOpen := false, isDragging := false,
              overlayOpacity := none, panelTransform := none },
     [Ev.paymentClose])

/-- `open(amount?)`: a no-op when already open; otherwise restore the
default methods unless a custom list is pending, clear the customized
flag, mark open, and (when given) format the amount. It dispatches no
event.  The restore path calls `renderPaymentMethods()` after the
selection reset (so the default row 0 becomes selected); the
custom-list path does not re-render, keeping the row state left by
`setPaymentMethods`. -/
def openPanel (amount : Option ℚ) (s : Panel) : Panel :=
  if s.isOpen then s
  else
    let s1 :=
      if !s.hasCustomPaymentMethods then
        { s with paymentMethods := DEFAULT_PAYMENT_METHODS,
                 fieldMapping := DEFAULT_FIELD_MAPPING,
                 selectedMethod := selectFirst DEFAULT_PAYMENT_METHODS s.selectedMethod,
                 selectedRow := renderSelectedRow DEFAULT_PAYMENT_METHODS
                   (selectFirst DEFAULT_PAYMENT_METHODS s.selectedMethod) }
      else s
    let s2 := { s1 with hasCustomPaymentMethods := false, isOpen := true }
    match amount with
    | some a => { s2 with amountText := toFixed2 a }
    | none => s2

/-- `setAmount(amount)`. -/
def setAmount (amount : ℚ) (s : Panel) : Panel :=
  { s with amountText := toFixed2 amount }

/-- `setPaymentMethods(methods?, fieldMapping?)`: swap the list, call
`renderPaymentMethods()` — still with the OLD selection, so a
replacement list usually leaves no row selected — and only then reset
the selection to the first element. -/
def setPaymentMethods (methods : Option (List PaymentMethod))
    (fieldMapping : Option FieldMapping) (s : Panel) : Panel :=
  let s1 :=
    match methods with
    | none =>
      { s with paymentMethods := DEFAULT_PAYMENT_METHODS,
               fieldMapping := DEFAULT_FIELD_MAPPING,
               hasCustomPaymentMethods := false }
    | some ms =>
      if ms.length = 0 then
        { s with paymentMethods := DEFAULT_PAYMENT_METHODS,
                 fieldMapping := DEFAULT_FIELD_MAPPING,
                 hasCustomPaymentMethods := false }
      else
        { s with paymentMethods := ms,
                 fieldMapping := fieldMapping.getD DEFAULT_FIELD_MAPPING,
                 hasCustomPaymentMethods := true }
  let s2 := { s1 with selectedRow := renderSelectedRow s1.paymentMethods s1.selectedMethod }
  { s2 with selectedMethod := s2.paymentMethods.head? }

/-- `getSelectedMethod()`. -/
def getSelectedMethod (s : Panel) : Option PaymentMethod := s.selectedMethod

/-- The record the confirm handlers resolve from the DOM:
`querySelector('.payment-method.selected')?.getAttribute('data-index')`
followed by `this.paymentMethods[parseInt(selectedIndex, 10)]`, `null`
when no row carries the `selected` class. -/
def domSelectedMethod (s : Panel) : Option PaymentMethod :=
  match s.selectedRow with
  | none => none
  | some i => s.paymentMethods[i]?

/-- `setCloseThreshold(threshold)`: assign, then the `setAttribute`
echo (`parseFloat(newValue) || 100`). -/
def setCloseThreshold (threshold : ℚ) (s : Panel) : Panel :=
  let r := echoFloatAttr DEFAULT_CONFIG.closeThreshold s.attrCloseThreshold threshold
  { s with closeThreshold := r.2, attrCloseThreshold := r.1 }

/-- `setCloseThresholdPercent(percent)`: `Math.max(0, Math.min(1, percent))`,
then the `setAttribute` echo (`parseFloat(newValue) || 0.3`). -/
def setCloseThresholdPercent (percent : ℚ) (s : Panel) : Panel :=
  let c := max 0 (min 1 percent)
  let r := echoFloatAttr DEFAULT_CONFIG.closeThresholdPercent s.attrCloseThresholdPercent c
  { s with closeThresholdPercent := r.2, attrCloseThresholdPercent := r.1 }

/-- `setVelocityThreshold(threshold)`: assign, then the `setAttribute`
echo (`parseFloat(newValue) || 0.5`). -/
def setVelocityThreshold (threshold : ℚ) (s : Panel) : Panel :=
  let r := echoFloatAttr DEFAULT_CONFIG.velocityThreshold s.attrVelocityThreshold threshold
  { s with velocityThreshold := r.2, attrVelocityThreshold := r.1 }

/-- `setCloseOnOverlayClick(close)`. -/
def setCloseOnOverlayClick (b : Bool) (s : Panel) : Panel :=
  { s with closeOnOverlayClick := b }

/-- `setEnablePassword(enable)`: disabling clears the buffer. -/
def setEnablePassword (enable : Bool) (s : Panel) : Panel :=
  let s1 := { s with enablePassword := enable }
  if !enable then { s1 with currentPassword := "" } else s1

/-- `setPasswordLength(length)`: `Math.max(4, Math.min(12, length))`,
then the `setAttribute` echo (`parseInt(newValue) || 6`), then the
buffer is cleared. -/
def setPasswordLength (length : ℚ) (s : Panel) : Panel :=
  let c := max 4 (min 12 length)
  let r := echoIntAttr DEFAULT_CONFIG.passwordLength s.attrPasswordLength c
  { s with passwordLength := r.2, attrPasswordLength := r.1, currentPassword := "" }

/-- `setHeaderTitle(title)`: `title || '支付'`. -/
def setHeaderTitle (title : String) (s : Panel) : Panel :=
  { s with headerTitle := if title == "" then DEFAULT_CONFIG.headerTitle else title }

/-- `setConfig`, first block: `allowSwipeToClose` (no observed
attribute, so no echo). -/
def cfgAllowSwipe (config : PaymentPanelConfig) (s : Panel) : Panel :=
  { s with allowSwipeToClose :=
    config.allowSwipeToClose.getD DEFAULT_CONFIG.allowSwipeToClose }

/-- `setConfig`, `closeThreshold` block: assign supplied-or-default,
then the `setAttribute('close-threshold', ...)` echo. -/
def cfgCloseThreshold (config : PaymentPanelConfig) (s : Panel) : Panel :=
  let r := echoFloatAttr DEFAULT_CONFIG.closeThreshold s.attrCloseThreshold
    (config.closeThreshold.getD DEFAULT_CONFIG.closeThreshold)
  { s with closeThreshold := r.2, attrCloseThreshold := r.1 }

/-- `setConfig`, `closeThresholdPercent` block: clamp the supplied
value to `[0, 1]` (or take the default), then the attribute echo. -/
def cfgCloseThresholdPercent (config : PaymentPanelConfig) (s : Panel) : Panel :=
  let r := echoFloatAttr DEFAULT_CONFIG.closeThresholdPercent s.attrCloseThresholdPercent
    (match config.closeThresholdPercent with
     | some p => max 0 (min 1 p)
     | none => DEFAULT_CONFIG.closeThresholdPercent)
  { s with closeThresholdPercent := r.2, attrCloseThresholdPercent := r.1 }

/-- `setConfig`, `velocityThreshold` block: assign supplied-or-default,
then the attribute echo. -/
def cfgVelocityThreshold (config : PaymentPanelConfig) (s : Panel) : Panel :=
  let r := echoFloatAttr DEFAULT_CONFIG.velocityThreshold s.attrVelocityThreshold
    (config.velocityThreshold.getD DEFAULT_CONFIG.velocityThreshold)
  { s with velocityThreshold := r.2, attrVelocityThreshold := r.1 }

/-- `setConfig`, `closeOnOverlayClick` block (the boolean attribute
echo reassigns the same value, so only the assignment is modelled). -/
def cfgOverlay (config : PaymentPanelConfig) (s : Panel) : Panel :=
  { s with closeOnOverlayClick :=
    config.closeOnOverlayClick.getD DEFAULT_CONFIG.closeOnOverlayClick }

/-- `setConfig`, `enablePassword` block: assign supplied-or-default
(boolean echo is the identity) and clear the buffer when password mode
ends up disabled. -/
def cfgEnablePassword (config : PaymentPanelConfig) (s : Panel) : Panel :=
  let s1 := { s with enablePassword :=
    config.enablePassword.getD DEFAULT_CONFIG.enablePassword }
  if !s1.enablePassword then { s1 with currentPassword := "" } else s1

/-- `setConfig`, `passwordLength` block: clamp the supplied value to
`[4, 12]` (or take the default), run the `parseInt` attribute echo, and
clear the buffer when a length was supplied. -/
def cfgPasswordLength (config : PaymentPanelConfig) (s : Panel) : Panel :=
  let r := echoIntAttr DEFAULT_CONFIG.passwordLength s.attrPasswordLength
    (match config.passwordLength with
     | some l => max 4 (min 12 l)
     | none => DEFAULT_CONFIG.passwordLength)
  let s1 := { s with passwordLength := r.2, attrPasswordLength := r.1 }
  if config.passwordLength.isSome then { s1 with currentPassword := "" } else s1

/-- `setConfig`, `headerTitle` block: `config.headerTitle || DEFAULT`
when supplied, the default otherwise. -/
def cfgHeaderTitle (config : PaymentPanelConfig) (s : Panel) : Panel :=
  { s with headerTitle :=
    match config.headerTitle with
    | some t => if t == "" then DEFAULT_CONFIG.headerTitle else t
    | none => DEFAULT_CONFIG.headerTitle }

/-- `setConfig(config)`: the method's blocks in source order — every
recognized option becomes the supplied value (clamped for the percent
and the password length, with `||` fallback for the title) or its
default, each numeric option then re-parsed through its `setAttribute`
echo. -/
def setConfig (config : PaymentPanelConfig) (s : Panel) : Panel :=
  cfgHeaderTitle config
    (cfgPasswordLength config
      (cfgEnablePassword config
        (cfgOverlay config
          (cfgVelocityThreshold config
            (cfgCloseThresholdPercent config
              (cfgCloseThreshold config
                (cfgAllowSwipe config s)))))))

/-- `resetConfig()`: `setConfig({})` then `setPaymentMethods()`. -/
def resetConfig (s : Panel) : Panel :=
  setPaymentMethods none none (setConfig {} s)

/-- Where inside the shadow tree a press lands, as distinguished by the
checks in `handleDragStart`. -/
inductive DragTarget
  | closeBtn
  | content
  | actions
  | keyboard
  | dragHandle
  | header
  | panelOther
deriving DecidableEq

/-- A press is captured for dragging unless it lands on the close
button, the content area, the action row, or the keypad. -/
def DragTarget.captured : DragTarget → Bool
  | .closeBtn => false
  | .content => false
  | .actions => false
  | .keyboard => false
  | .dragHandle => true
  | .header => true
  | .panelOther => true

/-- `handleDragStart(e)` at primary-contact position `y`, time `t`. -/
def handleDragStart (target : DragTarget) (y t : ℚ) (s : Panel) : Panel :=
  if !s.isOpen || !s.allowSwipeToClose then s
  else if !target.captured then s
  else
    { s with isDragging := true, startY := y, currentY := y, startTime := t,
             lastY := y, lastTime := t, velocity := 0 }

/-- `handleDragMove(e)`; `panelHeight` is `this.panel.offsetHeight`. -/
def handleDragMove (panelHeight : ℚ) (y t : ℚ) (s : Panel) : Panel :=
  if !s.isDragging then s
  else
    let deltaY := y - s.startY
    if deltaY < 0 then s
    else
      let timeDelta := t - s.lastTime
      let vel := if timeDelta > 0 then |y - s.lastY| / timeDelta else s.velocity
      { s with velocity := vel, currentY := y, lastY := y, lastTime := t,
               panelTransform := some deltaY,
               overlayOpacity := some (max 0 (1 - deltaY / panelHeight)) }

/-- The effective close distance threshold computed in `handleDragEnd`:
`Math.max(this.closeThreshold, panelHeight * this.closeThresholdPercent)`. -/
def effectiveThreshold (panelHeight : ℚ) (s : Panel) : ℚ :=
  max s.closeThreshold (panelHeight * s.closeThresholdPercent)

/-- `handleDragEnd(e)`. -/
def handleDragEnd (panelHeight : ℚ) (s : Panel) : Panel × List Ev :=
  if !s.isDragging then (s, [])
  else
    let s1 := { s with isDragging := false }
    let deltaY := s1.currentY - s1.startY
    let threshold := effectiveThreshold panelHeight s1
    let finalVelocity : ℚ :=
      if s1.lastY ≠ s1.startY then
        (s1.currentY - s1.lastY) / max 1 (s1.lastTime - s1.startTime)
      else 0
    let shouldClose :=
      deltaY > threshold ∨
        (s1.velocity > s1.velocityThreshold ∧ finalVelocity > 0 ∧ deltaY > 0)
    if shouldClose then
      let r := closePanel s1
      ({ r.1 with startY := 0, currentY := 0, velocity := 0 }, r.2)
    else
      ({ s1 with panelTransform := none, overlayOpacity := none,
                 startY := 0, currentY := 0, velocity := 0 }, [])

/-- `selectedMethod?.value || selectedMethod` as dispatched in the
`method` field of `payment-confirm`. -/
def mkConfirmMethod (m : Option PaymentMethod) : ConfirmMethod :=
  match m with
  | none => ConfirmMethod.nullv
  | some r =>
    match List.lookup "value" r with
    | some v => if v.truthy then ConfirmMethod.val v else ConfirmMethod.record r
    | none => ConfirmMethod.record r

/-- `this.shadow.querySelector('#amount')?.textContent || '0.00'`. -/
def amountRead (s : Panel) : String :=
  if s.amountText == "" then "0.00" else s.amountText

/-- `checkPasswordComplete()`: at capacity, resolve the method from
the DOM's selected row, dispatch `payment-confirm` with the password,
clear the buffer, and call `close()`. -/
def checkPasswordComplete (s : Panel) : Panel × List Ev :=
  if (s.currentPassword.length : ℚ) = s.passwordLength then
    let payload : ConfirmPayload :=
      { method := mkConfirmMethod (domSelectedMethod s)
        methodData := domSelectedMethod s
        amount := amountRead s
        password := some s.currentPassword }
    let r := closePanel { s with currentPassword := "" }
    (r.1, Ev.paymentConfirm payload :: r.2)
  else (s, [])

/-- A numeric key press: append below capacity and check completion,
otherwise ignored. -/
def pressDigit (d : Char) (s : Panel) : Panel × List Ev :=
  if (s.currentPassword.length : ℚ) < s.passwordLength then
    checkPasswordComplete { s with currentPassword := s.currentPassword.push d }
  else (s, [])

/-- The delete key: `slice(0, -1)` when non-empty. -/
def pressDelete (s : Panel) : Panel :=
  if s.currentPassword.length > 0 then
    { s with currentPassword := s.currentPassword.dropRight 1 }
  else s

/-- The confirm button handler: resolve the method from the DOM's
selected row, dispatch `payment-confirm` without a password field,
then `close()`. -/
def confirmBtnClick (s : Panel) : Panel × List Ev :=
  let payload : ConfirmPayload :=
    { method := mkConfirmMethod (domSelectedMethod s)
      methodData := domSelectedMethod s
      amount := amountRead s
      password := none }
  let r := closePanel s
  (r.1, Ev.paymentConfirm payload :: r.2)

/-- A sequence of numeric key presses, accumulating dispatched events. -/
def pressSeq (ds : List Char) (s : Panel) : Panel × List Ev :=
  match ds with
  | [] => (s, [])
  | d :: rest =>
    let r1 := pressDigit d s
    let r2 := pressSeq rest r1.1
    (r2.1, r1.2 ++ r2.2)

/-- `getField` from `renderPaymentMethods`: the mapped field, then the
fixed fallback names, then `''`. -/
def getField (item : PaymentMethod) (field : String) (fallbacks : List String) : JVal :=
  match List.lookup field item with
  | some v => v
  | none =>
    match fallbacks.findSome? (fun f => List.lookup f item) with
    | some v => v
    | none => JVal.str ""

/-- The identity string the renderer puts in `data-method`:
`String(getField(method, valueField, ['value', 'id', 'code']) || index)`. -/
def resolveIdentityStr (fm : FieldMapping) (item : PaymentMethod) (index : ℕ) : String :=
  let valueField := fm.valueField.getD "value"
  let v := getField item valueField ["value", "id", "code"]
  if v.truthy then v.toDisplayString else toString index

/-- The sheet freshly opened with defaults. -/
def c1Panel0 : Panel := openPanel none initPanel

/-- Press on the drag handle at `y = 0`, `t = 0` ms. -/
def c1Panel1 : Panel := handleDragStart DragTarget.dragHandle 0 0 c1Panel0

/-- First move sample: `y = 2` at `t = 10` ms. -/
def c1Panel2 : Panel := handleDragMove 400 2 10 c1Panel1

/-- Second (downward) move sample: `y = 20` at `t = 30` ms, giving a
measured velocity of `|20 - 2| / 20 = 0.9` px/ms and `deltaY = 20`. -/
def c1Panel3 : Panel := handleDragMove 400 20 30 c1Panel2

/-- A slow deliberate drag released at `deltaY = 130` with the default
thresholds and a 400px panel. -/
def c2PanelFar : Panel :=
  { initPanel with isOpen := true, isDragging := true, currentY := 130 }

/-- The same drag released at `deltaY = 110` (at or below the effective
threshold `120`). -/
def c2PanelNear : Panel :=
  { initPanel with isOpen := true, isDragging := true, currentY := 110 }

/-- A one-entry custom list for the witness. -/
def c3Custom : List PaymentMethod := [[("value", JVal.str "custom"), ("title", JVal.str "Custom Pay")]]

/-- The partial configuration supplying an empty header title. -/
def c4Config : PaymentPanelConfig := { headerTitle := some "" }

/-- A panel whose option fields are all stale non-defaults but whose
observed attributes agree with a fresh panel (all absent). -/
def c4AltPanel : Panel :=
  { initPanel with
      closeThreshold := 77, closeThresholdPercent := 0.9,
      velocityThreshold := 9, passwordLength := 11,
      headerTitle := "stale", allowSwipeToClose := false }

/-- A reachable mid-drag state: the sheet is open, a track started at
`y = 100`, the pointer has moved to `y = 120` with measured velocity
`0.7`. -/
def c9Panel : Panel :=
  { initPanel with
      isOpen := true, isDragging := true,
      startY := 100, currentY := 120, startTime := 0,
      lastY := 120, lastTime := 50, velocity := 0.7 }

/-- Whether an event is a `payment-confirm`. -/
def Ev.isConfirm : Ev → Bool
  | .paymentConfirm _ => true
  | .paymentClose => false

/-- A fresh panel with `passwordLength` set to 4, then opened. -/
def c5Panel : Panel := openPanel none (setPasswordLength 4 initPanel)

/-- A record with no `value` property: identity must come from the
mapped `id` field. -/
def c6Record : PaymentMethod := [("id", JVal.num 7), ("name", JVal.str "X")]

/-- A field mapping declaring `id` as the identity field. -/
def c6Mapping : FieldMapping := { valueField := some "id" }

/-- The panel after `setPasswordLength(4)`, `setEnablePassword(true)`,
`setPaymentMethods([c6Record], c6Mapping)`, `open()`, and three digit
presses. -/
def c6Panel : Panel :=
  (pressSeq ['1', '2', '3']
    (openPanel none
      (setPaymentMethods (some [c6Record]) (some c6Mapping)
        (setEnablePassword true (setPasswordLength 4 initPanel))))).1

/-- The same state written out. -/
def c6PanelExplicit : Panel :=
  { initPanel with
      isOpen := true,
      enablePassword := true,
      passwordLength := 4,
      currentPassword := "123",
      paymentMethods := [c6Record],
      fieldMapping := c6Mapping,
      selectedMethod := some c6Record,
      hasCustomPaymentMethods := false,
      attrPasswordLength := some 4,
      selectedRow := none }

/-- A string consisting of some prefix, a dot, and exactly two decimal
digits. -/
def isTwoDecimal (s : String) : Prop :=
  ∃ p c1 c2, s = p ++ "." ++ String.mk [c1, c2] ∧ c1.isDigit = true ∧ c2.isDigit = true

/-- One call through the component's public surface (plus the input
handlers a user can trigger). -/
inductive ApiOp
  | openOp (amount : Option ℚ)
  | closeOp
  | setAmountOp (q : ℚ)
  | setMethodsOp (ms : Option (List PaymentMethod)) (fm : Option FieldMapping)
  | setConfigOp (c : PaymentPanelConfig)
  | resetConfigOp
  | setCloseThresholdOp (q : ℚ)
  | setCloseThresholdPercentOp (q : ℚ)
  | setVelocityThresholdOp (q : ℚ)
  | setCloseOnOverlayClickOp (b : Bool)
  | setEnablePasswordOp (b : Bool)
  | setPasswordLengthOp (q : ℚ)
  | setHeaderTitleOp (t : String)
  | pressDigitOp (d : Char)
  | pressDeleteOp
  | confirmClickOp
  | dragStartOp (tgt : DragTarget) (y t : ℚ)
  | dragMoveOp (ph y t : ℚ)
  | dragEndOp (ph : ℚ)

/-- Apply one public call (events discarded — only state matters here). -/
def applyOp (s : Panel) : ApiOp → Panel
  | .openOp a => openPanel a s
  | .closeOp => (closePanel s).1
  | .setAmountOp q => setAmount q s
  | .setMethodsOp ms fm => setPaymentMethods ms fm s
  | .setConfigOp c => setConfig c s
  | .resetConfigOp => resetConfig s
  | .setCloseThresholdOp q => setCloseThreshold q s
  | .setCloseThresholdPercentOp q => setCloseThresholdPercent q s
  | .setVelocityThresholdOp q => setVelocityThreshold q s
  | .setCloseOnOverlayClickOp b => setCloseOnOverlayClick b s
  | .setEnablePasswordOp b => setEnablePassword b s
  | .setPasswordLengthOp q => setPasswordLength q s
  | .setHeaderTitleOp t => setHeaderTitle t s
  | .pressDigitOp d => (pressDigit d s).1
  | .pressDeleteOp => pressDelete s
  | .confirmClickOp => (confirmBtnClick s).1
  | .dragStartOp tgt y t => handleDragStart tgt y t s
  | .dragMoveOp ph y t => handleDragMove ph y t s
  | .dragEndOp ph => (handleDragEnd ph s).1

/-- Run a sequence of public calls. -/
def runOps (ops : List ApiOp) (s : Panel) : Panel :=
  match ops with
  | [] => s
  | op :: rest => runOps rest (applyOp s op)

/-- The registry invariant: a non-empty list with the selection on its
head. -/
def MethodsInv (s : Panel) : Prop :=
  s.paymentMethods ≠ [] ∧ s.selectedMethod = s.paymentMethods.head?

/-! ## Gesture recognizer: supporting lemmas -/

/-- Right after `handleDragStart` captures a press, the last-sample
position coincides with the current position. -/
theorem dragStart_lastY_eq_currentY (target : DragTarget) (y t : ℚ) (s : Panel)
    (h : s.lastY = s.currentY) :
    (handleDragStart target y t s).lastY = (handleDragStart target y t s).currentY := by
  unfold handleDragStart
  split_ifs <;> simp [h]

/-- `handleDragMove` writes the same sample into `currentY` and `lastY`,
so the two fields stay equal through a whole drag. -/
theorem dragMove_lastY_eq_currentY (ph y t : ℚ) (s : Panel)
    (h : s.lastY = s.currentY) :
    (handleDragMove ph y t s).lastY = (handleDragMove ph y t s).currentY := by
  unfold handleDragMove
  split
  · exact h
  · dsimp only
    split
    · exact h
    · rfl

/-- With `lastY = currentY` (which holds at every release), the
final-direction velocity computed by `handleDragEnd` is `0`, so a drag
at or below the distance threshold never closes, whatever the measured
velocity. -/
theorem dragEnd_velocity_branch_dead (ph : ℚ) (s : Panel)
    (h : s.lastY = s.currentY)
    (hd : s.currentY - s.startY ≤ effectiveThreshold ph s) :
    (handleDragEnd ph s).2 = [] ∧ (handleDragEnd ph s).1.isOpen = s.isOpen := by
  unfold handleDragEnd
  split
  · exact ⟨rfl, rfl⟩
  · dsimp only
    rw [if_neg]
    · exact ⟨rfl, rfl⟩
    · rintro (hgt | ⟨hv, hfv, hdy⟩)
      · rw [show effectiveThreshold ph { s with isDragging := false } = effectiveThreshold ph s
              from rfl] at hgt
        exact absurd hgt (not_lt.mpr hd)
      · rw [h] at hfv
        rw [sub_self, zero_div] at hfv
        split_ifs at hfv
        · exact absurd hfv (lt_irrefl 0)
        · exact absurd hfv (lt_irrefl 0)

/-- Witness for the hypotheses of the dead-branch lemma. -/
theorem dragEnd_velocity_branch_dead_witness :
    initPanel.lastY = initPanel.currentY ∧
    initPanel.currentY - initPanel.startY ≤ effectiveThreshold 400 initPanel ∧
    (handleDragEnd 400 initPanel).2 = [] :=
  ⟨rfl, by norm_num [initPanel, effectiveThreshold, DEFAULT_CONFIG],
   (dragEnd_velocity_branch_dead 400 initPanel rfl
     (by norm_num [initPanel, effectiveThreshold, DEFAULT_CONFIG])).1⟩

/-! ## C1: the spec's velocity-close example, traced through the code -/

/-- C1: the velocity close rule. The spec example — a drag of
`deltaY = 20` (below the effective threshold `120`) whose measured
velocity `0.9` px/ms exceeds the default `velocityThreshold = 0.5` and
whose last movement was downward — does NOT close the sheet in the
code: `handleDragMove` overwrites `lastY` with `currentY` on every
sample, so at release `currentY - lastY = 0`, the final-direction
velocity is `0` (never strictly positive), and the velocity branch of
the close condition can never fire. The release dispatches no event
and leaves the sheet open. -/
theorem velocity_close_rule_dead_in_code :
    c1Panel3.velocity = 9 / 10 ∧
    c1Panel3.velocity > c1Panel3.velocityThreshold ∧
    c1Panel3.currentY - c1Panel3.startY = 20 ∧
    c1Panel3.currentY - c1Panel3.startY ≤ effectiveThreshold 400 c1Panel3 ∧
    c1Panel3.isOpen = true ∧
    c1Panel3.isDragging = true ∧
    c1Panel3.lastY = c1Panel3.currentY ∧
    (handleDragEnd 400 c1Panel3).2 = [] ∧
    (handleDragEnd 400 c1Panel3).1.isOpen = true := by
  norm_num [c1Panel3, c1Panel2, c1Panel1, c1Panel0, handleDragMove, handleDragStart,
    openPanel, initPanel, DEFAULT_CONFIG, DragTarget.captured, handleDragEnd,
    effectiveThreshold, closePanel]

/-- Characterization of `handleDragEnd` on an active drag. -/
theorem handleDragEnd_dragging (ph : ℚ) (s : Panel) (hd : s.isDragging = true) :
    handleDragEnd ph s =
      if s.currentY - s.startY > effectiveThreshold ph s ∨
         (s.velocity > s.velocityThreshold ∧
           (if s.lastY ≠ s.startY then
              (s.currentY - s.lastY) / max 1 (s.lastTime - s.startTime) else 0) > 0 ∧
           s.currentY - s.startY > 0) then
        ({ (closePanel { s with isDragging := false }).1 with
             startY := 0, currentY := 0, velocity := 0 },
         (closePanel { s with isDragging := false }).2)
      else
        ({ s with isDragging := false, panelTransform := none, overlayOpacity := none,
                  startY := 0, currentY := 0, velocity := 0 }, []) := by
  unfold handleDragEnd
  rw [if_neg (by simp [hd])]
  rfl

/-- C2: the distance close rule. On every drag end the effective
threshold is `max(closeThreshold, panelHeight * closeThresholdPercent)`;
a final displacement strictly above it closes the sheet (one
`payment-close`), while a displacement at or below it with measured
velocity not above `velocityThreshold` snaps back: no event, sheet
still open, inline transform and overlay opacity cleared, and the
`startY` / `currentY` / `velocity` track fields reset to `0` with the
drag flag down. -/
theorem distance_close_rule (ph : ℚ) (s : Panel)
    (hd : s.isDragging = true) (ho : s.isOpen = true) :
    effectiveThreshold ph s = max s.closeThreshold (ph * s.closeThresholdPercent) ∧
    (s.currentY - s.startY > effectiveThreshold ph s →
      (handleDragEnd ph s).2 = [Ev.paymentClose] ∧
      (handleDragEnd ph s).1.isOpen = false) ∧
    (s.currentY - s.startY ≤ effectiveThreshold ph s →
      s.velocity ≤ s.velocityThreshold →
      (handleDragEnd ph s).2 = [] ∧
      (handleDragEnd ph s).1.isOpen = true ∧
      (handleDragEnd ph s).1.panelTransform = none ∧
      (handleDragEnd ph s).1.overlayOpacity = none ∧
      (handleDragEnd ph s).1.startY = 0 ∧
      (handleDragEnd ph s).1.currentY = 0 ∧
      (handleDragEnd ph s).1.velocity = 0 ∧
      (handleDragEnd ph s).1.isDragging = false) := by
  refine ⟨rfl, ?_, ?_⟩
  · intro hgt
    rw [handleDragEnd_dragging ph s hd, if_pos (Or.inl hgt)]
    unfold closePanel
    rw [if_neg (by simp [ho])]
    exact ⟨rfl, rfl⟩
  · intro hle hvel
    rw [handleDragEnd_dragging ph s hd, if_neg]
    · exact ⟨rfl, ho, rfl, rfl, rfl, rfl, rfl, rfl⟩
    · rintro (hgt | ⟨hv, hfv, hdy⟩)
      · exact absurd hgt (not_lt.mpr hle)
      · exact absurd hv (not_lt.mpr hvel)

/-- Witness: the spec's numbers. `deltaY = 130 > 120 = max(100, 400 * 0.3)`
closes; `deltaY = 110 ≤ 120` with negligible velocity snaps back. -/
theorem distance_close_rule_witness :
    c2PanelFar.isDragging = true ∧ c2PanelFar.isOpen = true ∧
    effectiveThreshold 400 c2PanelFar = 120 ∧
    c2PanelFar.currentY - c2PanelFar.startY = 130 ∧
    (handleDragEnd 400 c2PanelFar).2 = [Ev.paymentClose] ∧
    (handleDragEnd 400 c2PanelFar).1.isOpen = false ∧
    c2PanelNear.currentY - c2PanelNear.startY = 110 ∧
    (handleDragEnd 400 c2PanelNear).2 = [] ∧
    (handleDragEnd 400 c2PanelNear).1.isOpen = true := by
  have hfar := (distance_close_rule 400 c2PanelFar rfl rfl).2.1
    (by norm_num [c2PanelFar, initPanel, effectiveThreshold, DEFAULT_CONFIG])
  have hnear := (distance_close_rule 400 c2PanelNear rfl rfl).2.2
    (by norm_num [c2PanelNear, initPanel, effectiveThreshold, DEFAULT_CONFIG])
    (by norm_num [c2PanelNear, initPanel, DEFAULT_CONFIG])
  refine ⟨rfl, rfl, ?_, ?_, hfar.1, hfar.2, ?_, hnear.1, hnear.2.1⟩
  · norm_num [c2PanelFar, initPanel, effectiveThreshold, DEFAULT_CONFIG]
  · norm_num [c2PanelFar, initPanel]
  · norm_num [c2PanelNear, initPanel]

/-! ## C3: custom method list survives exactly one open -/

/-- C3: the custom-method one-shot. Setting a non-empty custom list and
opening shows the custom list (with the supplied mapping, or the
default mapping when none was supplied); after closing, the next
`open()` restores the built-in default list and default field mapping
because the first `open()` cleared the customized flag. -/
theorem custom_method_one_shot (s : Panel) (custom : List PaymentMethod)
    (fm : Option FieldMapping) (hne : custom ≠ []) (hclosed : s.isOpen = false) :
    (openPanel none (setPaymentMethods (some custom) fm s)).paymentMethods = custom ∧
    (openPanel none (setPaymentMethods (some custom) fm s)).fieldMapping
      = fm.getD DEFAULT_FIELD_MAPPING ∧
    (openPanel none
      ((closePanel (openPanel none (setPaymentMethods (some custom) fm s))).1)).paymentMethods
      = DEFAULT_PAYMENT_METHODS ∧
    (openPanel none
      ((closePanel (openPanel none (setPaymentMethods (some custom) fm s))).1)).fieldMapping
      = DEFAULT_FIELD_MAPPING ∧
    (openPanel none
      ((closePanel (openPanel none (setPaymentMethods (some custom) fm s))).1)).selectedMethod
      = DEFAULT_PAYMENT_METHODS.head? := by
  simp [setPaymentMethods, openPanel, closePanel, selectFirst, hclosed,
    List.length_eq_zero, hne, DEFAULT_PAYMENT_METHODS]

/-- Witness: the one-shot sequence run from a fresh panel. -/
theorem custom_method_one_shot_witness :
    c3Custom ≠ [] ∧ initPanel.isOpen = false ∧
    (openPanel none (setPaymentMethods (some c3Custom) none initPanel)).paymentMethods = c3Custom ∧
    (openPanel none
      ((closePanel (openPanel none (setPaymentMethods (some c3Custom) none initPanel))).1)).paymentMethods
      = DEFAULT_PAYMENT_METHODS := by
  have h := custom_method_one_shot initPanel c3Custom none (by simp [c3Custom]) rfl
  exact ⟨by simp [c3Custom], rfl, h.1, h.2.2.1⟩

/-! ## C4: setConfig and stale values -/

/-- C4 counterexample: supplied values `setConfig` does not adopt.
A supplied empty `headerTitle` ends up as the default `"支付"`
(`config.headerTitle || DEFAULT`); a supplied `0` for each of the
three float options is destroyed by the attribute echo
(`parseFloat('0') || default` in `attributeChangedCallback`); a
supplied fractional password length is truncated by the echo's
`parseInt`. -/
theorem setConfig_supplied_values_not_adopted :
    c4Config.headerTitle = some "" ∧
    (setConfig c4Config initPanel).headerTitle = "支付" ∧
    (setConfig c4Config initPanel).headerTitle ≠ "" ∧
    (setConfig { closeThreshold := some 0 } initPanel).closeThreshold = 100 ∧
    (setConfig { closeThresholdPercent := some 0 } initPanel).closeThresholdPercent = 0.3 ∧
    (setConfig { velocityThreshold := some 0 } initPanel).velocityThreshold = 0.5 ∧
    (setConfig { passwordLength := some (9 / 2) } initPanel).passwordLength = 4 ∧
    (9 : ℚ) / 2 ≠ 4 := by
  refine ⟨rfl, ?_, ?_, ?_, ?_, ?_, ?_, by norm_num⟩ <;>
    norm_num [setConfig, cfgAllowSwipe, cfgCloseThreshold, cfgCloseThresholdPercent,
      cfgVelocityThreshold, cfgOverlay, cfgEnablePassword, cfgPasswordLength,
      cfgHeaderTitle, echoFloatAttr, echoIntAttr, parseIntNum, c4Config,
      initPanel, DEFAULT_CONFIG, apply_ite] <;> decide

/-- The `cfgAllowSwipe` block leaves every other field unchanged. -/
theorem cfgAllowSwipe_untouched (cfg : PaymentPanelConfig) (t : Panel) :
    (cfgAllowSwipe cfg t).isOpen = t.isOpen ∧
    (cfgAllowSwipe cfg t).isDragging = t.isDragging ∧
    (cfgAllowSwipe cfg t).startY = t.startY ∧
    (cfgAllowSwipe cfg t).currentY = t.currentY ∧
    (cfgAllowSwipe cfg t).startTime = t.startTime ∧
    (cfgAllowSwipe cfg t).lastY = t.lastY ∧
    (cfgAllowSwipe cfg t).lastTime = t.lastTime ∧
    (cfgAllowSwipe cfg t).velocity = t.velocity ∧
    (cfgAllowSwipe cfg t).closeThreshold = t.closeThreshold ∧
    (cfgAllowSwipe cfg t).closeThresholdPercent = t.closeThresholdPercent ∧
    (cfgAllowSwipe cfg t).velocityThreshold = t.velocityThreshold ∧
    (cfgAllowSwipe cfg t).closeOnOverlayClick = t.closeOnOverlayClick ∧
    (cfgAllowSwipe cfg t).enablePassword = t.enablePassword ∧
    (cfgAllowSwipe cfg t).passwordLength = t.passwordLength ∧
    (cfgAllowSwipe cfg t).currentPassword = t.currentPassword ∧
    (cfgAllowSwipe cfg t).headerTitle = t.headerTitle ∧
    (cfgAllowSwipe cfg t).paymentMethods = t.paymentMethods ∧
    (cfgAllowSwipe cfg t).fieldMapping = t.fieldMapping ∧
    (cfgAllowSwipe cfg t).selectedMethod = t.selectedMethod ∧
    (cfgAllowSwipe cfg t).hasCustomPaymentMethods = t.hasCustomPaymentMethods ∧
    (cfgAllowSwipe cfg t).panelTransform = t.panelTransform ∧
    (cfgAllowSwipe cfg t).overlayOpacity = t.overlayOpacity ∧
    (cfgAllowSwipe cfg t).amountText = t.amountText ∧
    (cfgAllowSwipe cfg t).attrCloseThreshold = t.attrCloseThreshold ∧
    (cfgAllowSwipe cfg t).attrCloseThresholdPercent = t.attrCloseThresholdPercent ∧
    (cfgAllowSwipe cfg t).attrVelocityThreshold = t.attrVelocityThreshold ∧
    (cfgAllowSwipe cfg t).attrPasswordLength = t.attrPasswordLength ∧
    (cfgAllowSwipe cfg t).selectedRow = t.selectedRow := ⟨rfl, rfl, rfl, rfl, rfl, rfl, rfl, rfl, rfl, rfl, rfl, rfl, rfl, rfl, rfl, rfl, rfl, rfl, rfl, rfl, rfl, rfl, rfl, rfl, rfl, rfl, rfl, rfl⟩

/-- The `cfgCloseThreshold` block leaves every other field unchanged. -/
theorem cfgCloseThreshold_untouched (cfg : PaymentPanelConfig) (t : Panel) :
    (cfgCloseThreshold cfg t).isOpen = t.isOpen ∧
    (cfgCloseThreshold cfg t).isDragging = t.isDragging ∧
    (cfgCloseThreshold cfg t).startY = t.startY ∧
    (cfgCloseThreshold cfg t).currentY = t.currentY ∧
    (cfgCloseThreshold cfg t).startTime = t.startTime ∧
    (cfgCloseThreshold cfg t).lastY = t.lastY ∧
    (cfgCloseThreshold cfg t).lastTime = t.lastTime ∧
    (cfgCloseThreshold cfg t).velocity = t.velocity ∧
    (cfgCloseThreshold cfg t).allowSwipeToClose = t.allowSwipeToClose ∧
    (cfgCloseThreshold cfg t).closeThresholdPercent = t.closeThresholdPercent ∧
    (cfgCloseThreshold cfg t).velocityThreshold = t.velocityThreshold ∧
    (cfgCloseThreshold cfg t).closeOnOverlayClick = t.closeOnOverlayClick ∧
    (cfgCloseThreshold cfg t).enablePassword = t.enablePassword ∧
    (cfgCloseThreshold cfg t).passwordLength = t.passwordLength ∧
    (cfgCloseThreshold cfg t).currentPassword = t.currentPassword ∧
    (cfgCloseThreshold cfg t).headerTitle = t.headerTitle ∧
    (cfgCloseThreshold cfg t).paymentMethods = t.paymentMethods ∧
    (cfgCloseThreshold cfg t).fieldMapping = t.fieldMapping ∧
    (cfgCloseThreshold cfg t).selectedMethod = t.selectedMethod ∧
    (cfgCloseThreshold cfg t).hasCustomPaymentMethods = t.hasCustomPaymentMethods ∧
    (cfgCloseThreshold cfg t).panelTransform = t.panelTransform ∧
    (cfgCloseThreshold cfg t).overlayOpacity = t.overlayOpacity ∧
    (cfgCloseThreshold cfg t).amountText = t.amountText ∧
    (cfgCloseThreshold cfg t).attrCloseThresholdPercent = t.attrCloseThresholdPercent ∧
    (cfgCloseThreshold cfg t).attrVelocityThreshold = t.attrVelocityThreshold ∧
    (cfgCloseThreshold cfg t).attrPasswordLength = t.attrPasswordLength ∧
    (cfgCloseThreshold cfg t).selectedRow = t.selectedRow := ⟨rfl, rfl, rfl, rfl, rfl, rfl, rfl, rfl, rfl, rfl, rfl, rfl, rfl, rfl, rfl, rfl, rfl, rfl, rfl, rfl, rfl, rfl, rfl, rfl, rfl, rfl, rfl⟩

/-- The `cfgCloseThresholdPercent` block leaves every other field unchanged. -/
theorem cfgCloseThresholdPercent_untouched (cfg : PaymentPanelConfig) (t : Panel) :
    (cfgCloseThresholdPercent cfg t).isOpen = t.isOpen ∧
    (cfgCloseThresholdPercent cfg t).isDragging = t.isDragging ∧
    (cfgCloseThresholdPercent cfg t).startY = t.startY ∧
    (cfgCloseThresholdPercent cfg t).currentY = t.currentY ∧
    (cfgCloseThresholdPercent cfg t).startTime = t.startTime ∧
    (cfgCloseThresholdPercent cfg t).lastY = t.lastY ∧
    (cfgCloseThresholdPercent cfg t).lastTime = t.lastTime ∧
    (cfgCloseThresholdPercent cfg t).velocity = t.velocity ∧
    (cfgCloseThresholdPercent cfg t).allowSwipeToClose = t.allowSwipeToClose ∧
    (cfgCloseThresholdPercent cfg t).closeThreshold = t.closeThreshold ∧
    (cfgCloseThresholdPercent cfg t).velocityThreshold = t.velocityThreshold ∧
    (cfgCloseThresholdPercent cfg t).closeOnOverlayClick = t.closeOnOverlayClick ∧
    (cfgCloseThresholdPercent cfg t).enablePassword = t.enablePassword ∧
    (cfgCloseThresholdPercent cfg t).passwordLength = t.passwordLength ∧
    (cfgCloseThresholdPercent cfg t).currentPassword = t.currentPassword ∧
    (cfgCloseThresholdPercent cfg t).headerTitle = t.headerTitle ∧
    (cfgCloseThresholdPercent cfg t).paymentMethods = t.paymentMethods ∧
    (cfgCloseThresholdPercent cfg t).fieldMapping = t.fieldMapping ∧
    (cfgCloseThresholdPercent cfg t).selectedMethod = t.selectedMethod ∧
    (cfgCloseThresholdPercent cfg t).hasCustomPaymentMethods = t.hasCustomPaymentMethods ∧
    (cfgCloseThresholdPercent cfg t).panelTransform = t.panelTransform ∧
    (cfgCloseThresholdPercent cfg t).overlayOpacity = t.overlayOpacity ∧
    (cfgCloseThresholdPercent cfg t).amountText = t.amountText ∧
    (cfgCloseThresholdPercent cfg t).attrCloseThreshold = t.attrCloseThreshold ∧
    (cfgCloseThresholdPercent cfg t).attrVelocityThreshold = t.attrVelocityThreshold ∧
    (cfgCloseThresholdPercent cfg t).attrPasswordLength = t.attrPasswordLength ∧
    (cfgCloseThresholdPercent cfg t).selectedRow = t.selectedRow := ⟨rfl, rfl, rfl, rfl, rfl, rfl, rfl, rfl, rfl, rfl, rfl, rfl, rfl, rfl, rfl, rfl, rfl, rfl, rfl, rfl, rfl, rfl, rfl, rfl, rfl, rfl, rfl⟩

/-- The `cfgVelocityThreshold` block leaves every other field unchanged. -/
theorem cfgVelocityThreshold_untouched (cfg : PaymentPanelConfig) (t : Panel) :
    (cfgVelocityThreshold cfg t).isOpen = t.isOpen ∧
    (cfgVelocityThreshold cfg t).isDragging = t.isDragging ∧
    (cfgVelocityThreshold cfg t).startY = t.startY ∧
    (cfgVelocityThreshold cfg t).currentY = t.currentY ∧
    (cfgVelocityThreshold cfg t).startTime = t.startTime ∧
    (cfgVelocityThreshold cfg t).lastY = t.lastY ∧
    (cfgVelocityThreshold cfg t).lastTime = t.lastTime ∧
    (cfgVelocityThreshold cfg t).velocity = t.velocity ∧
    (cfgVelocityThreshold cfg t).allowSwipeToClose = t.allowSwipeToClose ∧
    (cfgVelocityThreshold cfg t).closeThreshold = t.closeThreshold ∧
    (cfgVelocityThreshold cfg t).closeThresholdPercent = t.closeThresholdPercent ∧
    (cfgVelocityThreshold cfg t).closeOnOverlayClick = t.closeOnOverlayClick ∧
    (cfgVelocityThreshold cfg t).enablePassword = t.enablePassword ∧
    (cfgVelocityThreshold cfg t).passwordLength = t.passwordLength ∧
    (cfgVelocityThreshold cfg t).currentPassword = t.currentPassword ∧
    (cfgVelocityThreshold cfg t).headerTitle = t.headerTitle ∧
    (cfgVelocityThreshold cfg t).paymentMethods = t.paymentMethods ∧
    (cfgVelocityThreshold cfg t).fieldMapping = t.fieldMapping ∧
    (cfgVelocityThreshold cfg t).selectedMethod = t.selectedMethod ∧
    (cfgVelocityThreshold cfg t).hasCustomPaymentMethods = t.hasCustomPaymentMethods ∧
    (cfgVelocityThreshold cfg t).panelTransform = t.panelTransform ∧
    (cfgVelocityThreshold cfg t).overlayOpacity = t.overlayOpacity ∧
    (cfgVelocityThreshold cfg t).amountText = t.amountText ∧
    (cfgVelocityThreshold cfg t).attrCloseThreshold = t.attrCloseThreshold ∧
    (cfgVelocityThreshold cfg t).attrCloseThresholdPercent = t.attrCloseThresholdPercent ∧
    (cfgVelocityThreshold cfg t).attrPasswordLength = t.attrPasswordLength ∧
    (cfgVelocityThreshold cfg t).selectedRow = t.selectedRow := ⟨rfl, rfl, rfl, rfl, rfl, rfl, rfl, rfl, rfl, rfl, rfl, rfl, rfl, rfl, rfl, rfl, rfl, rfl, rfl, rfl, rfl, rfl, rfl, rfl, rfl, rfl, rfl⟩

/-- The `cfgOverlay` block leaves every other field unchanged. -/
theorem cfgOverlay_untouched (cfg : PaymentPanelConfig) (t : Panel) :
    (cfgOverlay cfg t).isOpen = t.isOpen ∧
    (cfgOverlay cfg t).isDragging = t.isDragging ∧
    (cfgOverlay cfg t).startY = t.startY ∧
    (cfgOverlay cfg t).currentY = t.currentY ∧
    (cfgOverlay cfg t).startTime = t.startTime ∧
    (cfgOverlay cfg t).lastY = t.lastY ∧
    (cfgOverlay cfg t).lastTime = t.lastTime ∧
    (cfgOverlay cfg t).velocity = t.velocity ∧
    (cfgOverlay cfg t).allowSwipeToClose = t.allowSwipeToClose ∧
    (cfgOverlay cfg t).closeThreshold = t.closeThreshold ∧
    (cfgOverlay cfg t).closeThresholdPercent = t.closeThresholdPercent ∧
    (cfgOverlay cfg t).velocityThreshold = t.velocityThreshold ∧
    (cfgOverlay cfg t).enablePassword = t.enablePassword ∧
    (cfgOverlay cfg t).passwordLength = t.passwordLength ∧
    (cfgOverlay cfg t).currentPassword = t.currentPassword ∧
    (cfgOverlay cfg t).headerTitle = t.headerTitle ∧
    (cfgOverlay cfg t).paymentMethods = t.paymentMethods ∧
    (cfgOverlay cfg t).fieldMapping = t.fieldMapping ∧
    (cfgOverlay cfg t).selectedMethod = t.selectedMethod ∧
    (cfgOverlay cfg t).hasCustomPaymentMethods = t.hasCustomPaymentMethods ∧
    (cfgOverlay cfg t).panelTransform = t.panelTransform ∧
    (cfgOverlay cfg t).overlayOpacity = t.overlayOpacity ∧
    (cfgOverlay cfg t).amountText = t.amountText ∧
    (cfgOverlay cfg t).attrCloseThreshold = t.attrCloseThreshold ∧
    (cfgOverlay cfg t).attrCloseThresholdPercent = t.attrCloseThresholdPercent ∧
    (cfgOverlay cfg t).attrVelocityThreshold = t.attrVelocityThreshold ∧
    (cfgOverlay cfg t).attrPasswordLength = t.attrPasswordLength ∧
    (cfgOverlay cfg t).selectedRow = t.selectedRow := ⟨rfl, rfl, rfl, rfl, rfl, rfl, rfl, rfl, rfl, rfl, rfl, rfl, rfl, rfl, rfl, rfl, rfl, rfl, rfl, rfl, rfl, rfl, rfl, rfl, rfl, rfl, rfl, rfl⟩

/-- The `cfgEnablePassword` block leaves every other field unchanged. -/
theorem cfgEnablePassword_untouched (cfg : PaymentPanelConfig) (t : Panel) :
    (cfgEnablePassword cfg t).isOpen = t.isOpen ∧
    (cfgEnablePassword cfg t).isDragging = t.isDragging ∧
    (cfgEnablePassword cfg t).startY = t.startY ∧
    (cfgEnablePassword cfg t).currentY = t.currentY ∧
    (cfgEnablePassword cfg t).startTime = t.startTime ∧
    (cfgEnablePassword cfg t).lastY = t.lastY ∧
    (cfgEnablePassword cfg t).lastTime = t.lastTime ∧
    (cfgEnablePassword cfg t).velocity = t.velocity ∧
    (cfgEnablePassword cfg t).allowSwipeToClose = t.allowSwipeToClose ∧
    (cfgEnablePassword cfg t).closeThreshold = t.closeThreshold ∧
    (cfgEnablePassword cfg t).closeThresholdPercent = t.closeThresholdPercent ∧
    (cfgEnablePassword cfg t).velocityThreshold = t.velocityThreshold ∧
    (cfgEnablePassword cfg t).closeOnOverlayClick = t.closeOnOverlayClick ∧
    (cfgEnablePassword cfg t).passwordLength = t.passwordLength ∧
    (cfgEnablePassword cfg t).headerTitle = t.headerTitle ∧
    (cfgEnablePassword cfg t).paymentMethods = t.paymentMethods ∧
    (cfgEnablePassword cfg t).fieldMapping = t.fieldMapping ∧
    (cfgEnablePassword cfg t).selectedMethod = t.selectedMethod ∧
    (cfgEnablePassword cfg t).hasCustomPaymentMethods = t.hasCustomPaymentMethods ∧
    (cfgEnablePassword cfg t).panelTransform = t.panelTransform ∧
    (cfgEnablePassword cfg t).overlayOpacity = t.overlayOpacity ∧
    (cfgEnablePassword cfg t).amountText = t.amountText ∧
    (cfgEnablePassword cfg t).attrCloseThreshold = t.attrCloseThreshold ∧
    (cfgEnablePassword cfg t).attrCloseThresholdPercent = t.attrCloseThresholdPercent ∧
    (cfgEnablePassword cfg t).attrVelocityThreshold = t.attrVelocityThreshold ∧
    (cfgEnablePassword cfg t).attrPasswordLength = t.attrPasswordLength ∧
    (cfgEnablePassword cfg t).selectedRow = t.selectedRow := by
  simp only [cfgEnablePassword]
  split_ifs <;> exact ⟨rfl, rfl, rfl, rfl, rfl, rfl, rfl, rfl, rfl, rfl, rfl, rfl, rfl, rfl, rfl, rfl, rfl, rfl, rfl, rfl, rfl, rfl, rfl, rfl, rfl, rfl, rfl⟩

/-- The `cfgPasswordLength` block leaves every other field unchanged. -/
theorem cfgPasswordLength_untouched (cfg : PaymentPanelConfig) (t : Panel) :
    (cfgPasswordLength cfg t).isOpen = t.isOpen ∧
    (cfgPasswordLength cfg t).isDragging = t.isDragging ∧
    (cfgPasswordLength cfg t).startY = t.startY ∧
    (cfgPasswordLength cfg t).currentY = t.currentY ∧
    (cfgPasswordLength cfg t).startTime = t.startTime ∧
    (cfgPasswordLength cfg t).lastY = t.lastY ∧
    (cfgPasswordLength cfg t).lastTime = t.lastTime ∧
    (cfgPasswordLength cfg t).velocity = t.velocity ∧
    (cfgPasswordLength cfg t).allowSwipeToClose = t.allowSwipeToClose ∧
    (cfgPasswordLength cfg t).closeThreshold = t.closeThreshold ∧
    (cfgPasswordLength cfg t).closeThresholdPercent = t.closeThresholdPercent ∧
    (cfgPasswordLength cfg t).velocityThreshold = t.velocityThreshold ∧
    (cfgPasswordLength cfg t).closeOnOverlayClick = t.closeOnOverlayClick ∧
    (cfgPasswordLength cfg t).enablePassword = t.enablePassword ∧
    (cfgPasswordLength cfg t).headerTitle = t.headerTitle ∧
    (cfgPasswordLength cfg t).paymentMethods = t.paymentMethods ∧
    (cfgPasswordLength cfg t).fieldMapping = t.fieldMapping ∧
    (cfgPasswordLength cfg t).selectedMethod = t.selectedMethod ∧
    (cfgPasswordLength cfg t).hasCustomPaymentMethods = t.hasCustomPaymentMethods ∧
    (cfgPasswordLength cfg t).panelTransform = t.panelTransform ∧
    (cfgPasswordLength cfg t).overlayOpacity = t.overlayOpacity ∧
    (cfgPasswordLength cfg t).amountText = t.amountText ∧
    (cfgPasswordLength cfg t).attrCloseThreshold = t.attrCloseThreshold ∧
    (cfgPasswordLength cfg t).attrCloseThresholdPercent = t.attrCloseThresholdPercent ∧
    (cfgPasswordLength cfg t).attrVelocityThreshold = t.attrVelocityThreshold ∧
    (cfgPasswordLength cfg t).selectedRow = t.selectedRow := by
  simp only [cfgPasswordLength]
  split_ifs <;> exact ⟨rfl, rfl, rfl, rfl, rfl, rfl, rfl, rfl, rfl, rfl, rfl, rfl, rfl, rfl, rfl, rfl, rfl, rfl, rfl, rfl, rfl, rfl, rfl, rfl, rfl, rfl⟩

/-- The `cfgHeaderTitle` block leaves every other field unchanged. -/
theorem cfgHeaderTitle_untouched (cfg : PaymentPanelConfig) (t : Panel) :
    (cfgHeaderTitle cfg t).isOpen = t.isOpen ∧
    (cfgHeaderTitle cfg t).isDragging = t.isDragging ∧
    (cfgHeaderTitle cfg t).startY = t.startY ∧
    (cfgHeaderTitle cfg t).currentY = t.currentY ∧
    (cfgHeaderTitle cfg t).startTime = t.startTime ∧
    (cfgHeaderTitle cfg t).lastY = t.lastY ∧
    (cfgHeaderTitle cfg t).lastTime = t.lastTime ∧
    (cfgHeaderTitle cfg t).velocity = t.velocity ∧
    (cfgHeaderTitle cfg t).allowSwipeToClose = t.allowSwipeToClose ∧
    (cfgHeaderTitle cfg t).closeThreshold = t.closeThreshold ∧
    (cfgHeaderTitle cfg t).closeThresholdPercent = t.closeThresholdPercent ∧
    (cfgHeaderTitle cfg t).velocityThreshold = t.velocityThreshold ∧
    (cfgHeaderTitle cfg t).closeOnOverlayClick = t.closeOnOverlayClick ∧
    (cfgHeaderTitle cfg t).enablePassword = t.enablePassword ∧
    (cfgHeaderTitle cfg t).passwordLength = t.passwordLength ∧
    (cfgHeaderTitle cfg t).currentPassword = t.currentPassword ∧
    (cfgHeaderTitle cfg t).paymentMethods = t.paymentMethods ∧
    (cfgHeaderTitle cfg t).fieldMapping = t.fieldMapping ∧
    (cfgHeaderTitle cfg t).selectedMethod = t.selectedMethod ∧
    (cfgHeaderTitle cfg t).hasCustomPaymentMethods = t.hasCustomPaymentMethods ∧
    (cfgHeaderTitle cfg t).panelTransform = t.panelTransform ∧
    (cfgHeaderTitle cfg t).overlayOpacity = t.overlayOpacity ∧
    (cfgHeaderTitle cfg t).amountText = t.amountText ∧
    (cfgHeaderTitle cfg t).attrCloseThreshold = t.attrCloseThreshold ∧
    (cfgHeaderTitle cfg t).attrCloseThresholdPercent = t.attrCloseThresholdPercent ∧
    (cfgHeaderTitle cfg t).attrVelocityThreshold = t.attrVelocityThreshold ∧
    (cfgHeaderTitle cfg t).attrPasswordLength = t.attrPasswordLength ∧
    (cfgHeaderTitle cfg t).selectedRow = t.selectedRow := ⟨rfl, rfl, rfl, rfl, rfl, rfl, rfl, rfl, rfl, rfl, rfl, rfl, rfl, rfl, rfl, rfl, rfl, rfl, rfl, rfl, rfl, rfl, rfl, rfl, rfl, rfl, rfl, rfl⟩

/-- The values the blocks assign. -/
theorem cfg_block_values (cfg : PaymentPanelConfig) (t : Panel) :
    (cfgAllowSwipe cfg t).allowSwipeToClose
      = cfg.allowSwipeToClose.getD DEFAULT_CONFIG.allowSwipeToClose ∧
    (cfgCloseThreshold cfg t).closeThreshold
      = (echoFloatAttr DEFAULT_CONFIG.closeThreshold t.attrCloseThreshold
          (cfg.closeThreshold.getD DEFAULT_CONFIG.closeThreshold)).2 ∧
    (cfgCloseThresholdPercent cfg t).closeThresholdPercent
      = (echoFloatAttr DEFAULT_CONFIG.closeThresholdPercent t.attrCloseThresholdPercent
          ((cfg.closeThresholdPercent.map fun p => max 0 (min 1 p)).getD
            DEFAULT_CONFIG.closeThresholdPercent)).2 ∧
    (cfgVelocityThreshold cfg t).velocityThreshold
      = (echoFloatAttr DEFAULT_CONFIG.velocityThreshold t.attrVelocityThreshold
          (cfg.velocityThreshold.getD DEFAULT_CONFIG.velocityThreshold)).2 ∧
    (cfgOverlay cfg t).closeOnOverlayClick
      = cfg.closeOnOverlayClick.getD DEFAULT_CONFIG.closeOnOverlayClick ∧
    (cfgEnablePassword cfg t).enablePassword
      = cfg.enablePassword.getD DEFAULT_CONFIG.enablePassword ∧
    (cfgPasswordLength cfg t).passwordLength
      = (echoIntAttr DEFAULT_CONFIG.passwordLength t.attrPasswordLength
          ((cfg.passwordLength.map fun l => max 4 (min 12 l)).getD
            DEFAULT_CONFIG.passwordLength)).2 ∧
    (cfgHeaderTitle cfg t).headerTitle
      = (cfg.headerTitle.map fun s => if s == "" then DEFAULT_CONFIG.headerTitle else s).getD
          DEFAULT_CONFIG.headerTitle := by
  refine ⟨rfl, rfl, ?_, rfl, rfl, ?_, ?_, ?_⟩
  · cases hp : cfg.closeThresholdPercent <;> simp [cfgCloseThresholdPercent, hp]
  · simp only [cfgEnablePassword]
    split_ifs <;> rfl
  · cases hl : cfg.passwordLength <;>
      simp [cfgPasswordLength, hl, apply_ite]
  · cases ht : cfg.headerTitle <;> simp [cfgHeaderTitle, ht]

/-- The field value an echoed float-attribute write produces. -/
theorem echoFloatAttr_snd (d : ℚ) (a : Option ℚ) (v : ℚ) :
    (echoFloatAttr d a v).2 = if a = some v then v else if v = 0 then d else v := by
  unfold echoFloatAttr
  split_ifs <;> rfl

/-- The field value an echoed integer-attribute write produces. -/
theorem echoIntAttr_snd (d : ℚ) (a : Option ℚ) (v : ℚ) :
    (echoIntAttr d a v).2
      = if a = some v then v
        else if parseIntNum v = 0 then d else (parseIntNum v : ℚ) := by
  unfold echoIntAttr
  split_ifs <;> rfl

/-- The value every recognized option holds after `setConfig`. -/
theorem setConfig_option_values (s : Panel) (cfg : PaymentPanelConfig) :
    ((setConfig cfg s).allowSwipeToClose
      = cfg.allowSwipeToClose.getD DEFAULT_CONFIG.allowSwipeToClose) ∧
    ((setConfig cfg s).closeThreshold
      = let v := cfg.closeThreshold.getD DEFAULT_CONFIG.closeThreshold
        if s.attrCloseThreshold = some v then v
        else if v = 0 then DEFAULT_CONFIG.closeThreshold else v) ∧
    ((setConfig cfg s).closeThresholdPercent
      = let v := (cfg.closeThresholdPercent.map fun p => max 0 (min 1 p)).getD
          DEFAULT_CONFIG.closeThresholdPercent
        if s.attrCloseThresholdPercent = some v then v
        else if v = 0 then DEFAULT_CONFIG.closeThresholdPercent else v) ∧
    ((setConfig cfg s).velocityThreshold
      = let v := cfg.velocityThreshold.getD DEFAULT_CONFIG.velocityThreshold
        if s.attrVelocityThreshold = some v then v
        else if v = 0 then DEFAULT_CONFIG.velocityThreshold else v) ∧
    ((setConfig cfg s).closeOnOverlayClick
      = cfg.closeOnOverlayClick.getD DEFAULT_CONFIG.closeOnOverlayClick) ∧
    ((setConfig cfg s).enablePassword
      = cfg.enablePassword.getD DEFAULT_CONFIG.enablePassword) ∧
    ((setConfig cfg s).passwordLength
      = let v := (cfg.passwordLength.map fun l => max 4 (min 12 l)).getD
          DEFAULT_CONFIG.passwordLength
        if s.attrPasswordLength = some v then v
        else if parseIntNum v = 0 then DEFAULT_CONFIG.passwordLength
        else (parseIntNum v : ℚ)) ∧
    ((setConfig cfg s).headerTitle
      = (cfg.headerTitle.map fun t => if t == "" then DEFAULT_CONFIG.headerTitle else t).getD
          DEFAULT_CONFIG.headerTitle) := by
  simp only [setConfig, cfgHeaderTitle_untouched, cfgPasswordLength_untouched,
    cfgEnablePassword_untouched, cfgOverlay_untouched, cfgVelocityThreshold_untouched,
    cfgCloseThresholdPercent_untouched, cfgCloseThreshold_untouched, cfgAllowSwipe_untouched,
    cfg_block_values, echoFloatAttr_snd, echoIntAttr_snd]
  exact ⟨trivial, trivial, trivial, trivial, trivial, trivial, trivial, trivial⟩

/-- C4 (amended): `setConfig(partial)` overwrites every recognized
option with the supplied value (clamped where specified) or its
documented default, and the four numeric options are then re-parsed by
the attribute echo: a supplied `0` for `closeThreshold`,
`closeThresholdPercent` or `velocityThreshold` reverts to the default
unless the attribute already held that value, the password length is
truncated to its integer part unless the attribute already held the
clamped value, and a supplied empty `headerTitle` falls back to the
default.  No previous option value ever survives: the resulting
options are a function of the partial config and the four observed
attributes alone. -/
theorem setConfig_no_partial_bleed (s : Panel) (cfg : PaymentPanelConfig) :
    ((setConfig cfg s).allowSwipeToClose
      = cfg.allowSwipeToClose.getD DEFAULT_CONFIG.allowSwipeToClose) ∧
    ((setConfig cfg s).closeThreshold
      = let v := cfg.closeThreshold.getD DEFAULT_CONFIG.closeThreshold
        if s.attrCloseThreshold = some v then v
        else if v = 0 then DEFAULT_CONFIG.closeThreshold else v) ∧
    ((setConfig cfg s).closeThresholdPercent
      = let v := (cfg.closeThresholdPercent.map fun p => max 0 (min 1 p)).getD
          DEFAULT_CONFIG.closeThresholdPercent
        if s.attrCloseThresholdPercent = some v then v
        else if v = 0 then DEFAULT_CONFIG.closeThresholdPercent else v) ∧
    ((setConfig cfg s).velocityThreshold
      = let v := cfg.velocityThreshold.getD DEFAULT_CONFIG.velocityThreshold
        if s.attrVelocityThreshold = some v then v
        else if v = 0 then DEFAULT_CONFIG.velocityThreshold else v) ∧
    ((setConfig cfg s).closeOnOverlayClick
      = cfg.closeOnOverlayClick.getD DEFAULT_CONFIG.closeOnOverlayClick) ∧
    ((setConfig cfg s).enablePassword
      = cfg.enablePassword.getD DEFAULT_CONFIG.enablePassword) ∧
    ((setConfig cfg s).passwordLength
      = let v := (cfg.passwordLength.map fun l => max 4 (min 12 l)).getD
          DEFAULT_CONFIG.passwordLength
        if s.attrPasswordLength = some v then v
        else if parseIntNum v = 0 then DEFAULT_CONFIG.passwordLength
        else (parseIntNum v : ℚ)) ∧
    ((setConfig cfg s).headerTitle
      = (cfg.headerTitle.map fun t => if t == "" then DEFAULT_CONFIG.headerTitle else t).getD
          DEFAULT_CONFIG.headerTitle) ∧
    (∀ s2 : Panel,
        s2.attrCloseThreshold = s.attrCloseThreshold →
        s2.attrCloseThresholdPercent = s.attrCloseThresholdPercent →
        s2.attrVelocityThreshold = s.attrVelocityThreshold →
        s2.attrPasswordLength = s.attrPasswordLength →
        (setConfig cfg s2).allowSwipeToClose = (setConfig cfg s).allowSwipeToClose ∧
        (setConfig cfg s2).closeThreshold = (setConfig cfg s).closeThreshold ∧
        (setConfig cfg s2).closeThresholdPercent = (setConfig cfg s).closeThresholdPercent ∧
        (setConfig cfg s2).velocityThreshold = (setConfig cfg s).velocityThreshold ∧
        (setConfig cfg s2).closeOnOverlayClick = (setConfig cfg s).closeOnOverlayClick ∧
        (setConfig cfg s2).enablePassword = (setConfig cfg s).enablePassword ∧
        (setConfig cfg s2).passwordLength = (setConfig cfg s).passwordLength ∧
        (setConfig cfg s2).headerTitle = (setConfig cfg s).headerTitle) := by
  obtain ⟨a1, a2, a3, a4, a5, a6, a7, a8⟩ := setConfig_option_values s cfg
  refine ⟨a1, a2, a3, a4, a5, a6, a7, a8, ?_⟩
  intro s2 h1 h2 h3 h4
  obtain ⟨b1, b2, b3, b4, b5, b6, b7, b8⟩ := setConfig_option_values s2 cfg
  rw [h1] at b2
  rw [h2] at b3
  rw [h3] at b4
  rw [h4] at b7
  exact ⟨by rw [b1, a1], by rw [b2, a2], by rw [b3, a3], by rw [b4, a4],
         by rw [b5, a5], by rw [b6, a6], by rw [b7, a7], by rw [b8, a8]⟩

/-- Witness: the same partial config applied to a fresh panel and to a
panel with stale non-default option fields (but equal attributes)
yields the same options — the stale fields do not bleed through. -/
theorem setConfig_no_partial_bleed_witness :
    c4AltPanel.attrCloseThreshold = initPanel.attrCloseThreshold ∧
    c4AltPanel.attrCloseThresholdPercent = initPanel.attrCloseThresholdPercent ∧
    c4AltPanel.attrVelocityThreshold = initPanel.attrVelocityThreshold ∧
    c4AltPanel.attrPasswordLength = initPanel.attrPasswordLength ∧
    (setConfig { closeThreshold := some 50 } c4AltPanel).closeThreshold
      = (setConfig { closeThreshold := some 50 } initPanel).closeThreshold ∧
    (setConfig { closeThreshold := some 50 } c4AltPanel).velocityThreshold
      = (setConfig { closeThreshold := some 50 } initPanel).velocityThreshold ∧
    (setConfig { closeThreshold := some 50 } c4AltPanel).headerTitle
      = (setConfig { closeThreshold := some 50 } initPanel).headerTitle := by
  have h := (setConfig_no_partial_bleed initPanel { closeThreshold := some 50 }).2.2.2.2.2.2.2.2
    c4AltPanel rfl rfl rfl rfl
  exact ⟨rfl, rfl, rfl, rfl, h.2.1, h.2.2.2.1, h.2.2.2.2.2.2.2⟩

/-! ## C7: clamping and the attribute echo -/

/-- C7: the setters compute the claimed clamps — `[4, 12]` for the
password length, `[0, 1]` for the percent — and three of the claim's
four examples hold (2 becomes 4, 99 becomes 12, 1.5 becomes 1), but
the fourth fails: `setCloseThresholdPercent(-0.2)` clamps to `0` as
documented, yet the `setAttribute` echo re-parses the written `"0"`
with `parseFloat('0') || 0.3`, restoring the default `0.3` instead of
the claimed `0.0`.  `setCloseThreshold(0)` is likewise overwritten to
`100`, and a fractional clamped password length is truncated by the
echo's `parseInt`.  The results do stay inside the claimed intervals,
and the setters are total, so no input is ever rejected. -/
theorem clamping_destroyed_by_attribute_echo :
    max 0 (min 1 (-0.2 : ℚ)) = 0 ∧
    (setCloseThresholdPercent (-0.2) initPanel).closeThresholdPercent = 0.3 ∧
    (0.3 : ℚ) ≠ 0 ∧
    (setCloseThreshold 0 initPanel).closeThreshold = 100 ∧
    (setPasswordLength (9 / 2) initPanel).passwordLength = 4 ∧
    (setPasswordLength 2 initPanel).passwordLength = 4 ∧
    (setPasswordLength 99 initPanel).passwordLength = 12 ∧
    (setCloseThresholdPercent 1.5 initPanel).closeThresholdPercent = 1 ∧
    (setConfig { passwordLength := some 2 } initPanel).passwordLength = 4 ∧
    (setConfig { closeThresholdPercent := some 1.5 } initPanel).closeThresholdPercent = 1 ∧
    (∀ (x : ℚ) (s : Panel), 4 ≤ (setPasswordLength x s).passwordLength ∧
        (setPasswordLength x s).passwordLength ≤ 12) ∧
    (∀ (p : ℚ) (s : Panel), 0 ≤ (setCloseThresholdPercent p s).closeThresholdPercent ∧
        (setCloseThresholdPercent p s).closeThresholdPercent ≤ 1) := by
  refine ⟨by norm_num, ?_, by norm_num, ?_, ?_, ?_, ?_, ?_, ?_, ?_, ?_, ?_⟩
  · norm_num [setCloseThresholdPercent, echoFloatAttr, initPanel, DEFAULT_CONFIG]
    rfl
  · norm_num [setCloseThreshold, echoFloatAttr, initPanel, DEFAULT_CONFIG]
    rfl
  · norm_num [setPasswordLength, echoIntAttr, parseIntNum, initPanel, DEFAULT_CONFIG]
    rfl
  · norm_num [setPasswordLength, echoIntAttr, parseIntNum, initPanel, DEFAULT_CONFIG]
    rfl
  · norm_num [setPasswordLength, echoIntAttr, parseIntNum, initPanel, DEFAULT_CONFIG]
    rfl
  · norm_num [setCloseThresholdPercent, echoFloatAttr, initPanel, DEFAULT_CONFIG]
    rfl
  · norm_num [setConfig, cfgAllowSwipe, cfgCloseThreshold, cfgCloseThresholdPercent,
      cfgVelocityThreshold, cfgOverlay, cfgEnablePassword, cfgPasswordLength,
      cfgHeaderTitle, echoFloatAttr, echoIntAttr, parseIntNum, initPanel,
      DEFAULT_CONFIG, apply_ite]
  · norm_num [setConfig, cfgAllowSwipe, cfgCloseThreshold, cfgCloseThresholdPercent,
      cfgVelocityThreshold, cfgOverlay, cfgEnablePassword, cfgPasswordLength,
      cfgHeaderTitle, echoFloatAttr, echoIntAttr, parseIntNum, initPanel,
      DEFAULT_CONFIG, apply_ite]
  · intro x s
    have hc4 : (4 : ℚ) ≤ max 4 (min 12 x) := le_max_left _ _
    have hc12 : max 4 (min 12 x) ≤ 12 := max_le (by norm_num) (min_le_left _ _)
    have hcpos : ¬(max 4 (min 12 x) < 0) := by linarith
    simp only [setPasswordLength, echoIntAttr, parseIntNum, if_neg hcpos]
    split_ifs
    · exact ⟨hc4, hc12⟩
    · constructor <;> norm_num [DEFAULT_CONFIG]
    · constructor
      · have h4 : (4 : ℤ) ≤ ⌊max 4 (min 12 x)⌋ := Int.le_floor.mpr (by exact_mod_cast hc4)
        have h4q : (4 : ℚ) ≤ ((⌊max 4 (min 12 x)⌋ : ℤ) : ℚ) := by exact_mod_cast h4
        exact h4q
      · exact le_trans (Int.floor_le _) hc12
  · intro p s
    have hc0 : (0 : ℚ) ≤ max 0 (min 1 p) := le_max_left _ _
    have hc1 : max 0 (min 1 p) ≤ 1 := max_le (by norm_num) (min_le_left _ _)
    simp only [setCloseThresholdPercent, echoFloatAttr]
    split_ifs
    · exact ⟨hc0, hc1⟩
    · constructor <;> norm_num [DEFAULT_CONFIG]
    · exact ⟨hc0, hc1⟩

/-! ## C8: re-entrant open/close -/

/-- C8: re-entrant no-op and idempotence. `open()` on an open sheet
returns the state unchanged (and `open` dispatches nothing on any
path); `close()` on a closed sheet returns the state unchanged with no
event. Consequently calling either twice in a row equals calling it
once, and a `payment-close` is dispatched at most once per call — only
on an actual open-to-closed transition. -/
theorem open_close_idempotent (s : Panel) (a b : Option ℚ) :
    (s.isOpen = true → openPanel a s = s) ∧
    (s.isOpen = false → closePanel s = (s, [])) ∧
    (openPanel a s).isOpen = true ∧
    openPanel b (openPanel a s) = openPanel a s ∧
    (closePanel s).1.isOpen = false ∧
    closePanel (closePanel s).1 = ((closePanel s).1, []) ∧
    (closePanel s).2.count Ev.paymentClose ≤ 1 := by
  have hOpen : ∀ c : Option ℚ, (openPanel c s).isOpen = true := by
    intro c
    unfold openPanel
    split_ifs with h1 h2 <;> cases c <;> simp_all
  have hNoopO : ∀ (t : Panel) (c : Option ℚ), t.isOpen = true → openPanel c t = t := by
    intro t c ht
    unfold openPanel
    rw [if_pos ht]
  have hClosed : (closePanel s).1.isOpen = false := by
    unfold closePanel
    split_ifs with h1 <;> simp_all
  have hNoopC : ∀ t : Panel, t.isOpen = false → closePanel t = (t, []) := by
    intro t ht
    unfold closePanel
    rw [if_pos (by simp [ht])]
  refine ⟨hNoopO s a, hNoopC s, hOpen a, hNoopO (openPanel a s) b (hOpen a), hClosed,
          hNoopC (closePanel s).1 hClosed, ?_⟩
  unfold closePanel
  split_ifs <;> simp

/-- Witness: the double-call laws evaluated from a fresh panel. -/
theorem open_close_idempotent_witness :
    initPanel.isOpen = false ∧
    closePanel initPanel = (initPanel, []) ∧
    (openPanel none initPanel).isOpen = true ∧
    openPanel none (openPanel none initPanel) = openPanel none initPanel ∧
    closePanel (closePanel (openPanel none initPanel)).1
      = ((closePanel (openPanel none initPanel)).1, []) := by
  have h1 := open_close_idempotent initPanel none none
  have h2 := open_close_idempotent (openPanel none initPanel) none none
  exact ⟨rfl, h1.2.1 rfl, h1.2.2.1, h1.2.2.2.1, h2.2.2.2.2.2.1⟩

/-! ## C9: a press during an active drag -/

/-- C9 counterexample: `handleDragStart` has no `isDragging` guard, so
a further eligible press while a track is active does NOT leave the
existing track's fields unchanged — it overwrites the start position
(100 becomes 50), the start time, the last-sample fields and zeroes the
velocity. -/
theorem drag_start_overwrites_active_track :
    c9Panel.isDragging = true ∧ c9Panel.isOpen = true ∧
    c9Panel.allowSwipeToClose = true ∧ DragTarget.dragHandle.captured = true ∧
    c9Panel.startY = 100 ∧ c9Panel.velocity = 0.7 ∧
    (handleDragStart DragTarget.dragHandle 50 1000 c9Panel).startY = 50 ∧
    (handleDragStart DragTarget.dragHandle 50 1000 c9Panel).startTime = 1000 ∧
    (handleDragStart DragTarget.dragHandle 50 1000 c9Panel).velocity = 0 ∧
    (50 : ℚ) ≠ 100 := by
  norm_num [c9Panel, initPanel, handleDragStart, DragTarget.captured, DEFAULT_CONFIG]

/-- C9 (amended): while the sheet is open with swipe enabled, an
eligible press — including one arriving while a track is already
active — re-initializes the track wholesale: the recognizer stays (or
becomes) `Dragging` and all six track fields are reset to the new
press's position and time with velocity `0`; the previous track's
fields are replaced, not preserved. -/
theorem drag_start_restarts_track (s : Panel) (tgt : DragTarget) (y t : ℚ)
    (ho : s.isOpen = true) (hs : s.allowSwipeToClose = true)
    (hc : tgt.captured = true) :
    handleDragStart tgt y t s =
      { s with isDragging := true, startY := y, currentY := y, startTime := t,
               lastY := y, lastTime := t, velocity := 0 } := by
  unfold handleDragStart
  rw [if_neg (by simp [ho, hs]), if_neg (by simp [hc])]

/-- Witness: the amended behaviour at the concrete mid-drag state. -/
theorem drag_start_restarts_track_witness :
    c9Panel.isOpen = true ∧ c9Panel.allowSwipeToClose = true ∧
    DragTarget.header.captured = true ∧
    handleDragStart DragTarget.header 50 1000 c9Panel =
      { c9Panel with isDragging := true, startY := 50, currentY := 50, startTime := 1000,
                     lastY := 50, lastTime := 1000, velocity := 0 } :=
  ⟨rfl, rfl, rfl, drag_start_restarts_track c9Panel DragTarget.header 50 1000 rfl rfl rfl⟩

/-- Concrete evaluation of the `password-length` echo on a fresh
panel: the attribute was unset, `parseInt('4')` is `4`. -/
theorem echoIntAttr_fresh4 : echoIntAttr 6 none 4 = (some 4, 4) := rfl

/-! ## C5: password auto-submit -/

/-- `pressSeq` on a cons, unfolded. -/
theorem pressSeq_cons (d : Char) (rest : List Char) (s : Panel) :
    pressSeq (d :: rest) s =
      ((pressSeq rest (pressDigit d s).1).1,
       (pressDigit d s).2 ++ (pressSeq rest (pressDigit d s).1).2) := rfl

/-- Folding `String.push` adds exactly the pushed count to the length. -/
theorem length_foldl_push (ds : List Char) (str : String) :
    (ds.foldl String.push str).length = str.length + ds.length := by
  induction ds generalizing str with
  | nil => simp
  | cons d rest ih =>
    rw [List.foldl_cons, ih]
    simp
    omega

/-- A digit press strictly below capacity that does not reach capacity
just appends. -/
theorem pressDigit_below (d : Char) (s : Panel)
    (hguard : (s.currentPassword.length : ℚ) < s.passwordLength)
    (hnotfull : ((s.currentPassword.push d).length : ℚ) ≠ s.passwordLength) :
    pressDigit d s = ({ s with currentPassword := s.currentPassword.push d }, []) := by
  unfold pressDigit
  rw [if_pos hguard]
  unfold checkPasswordComplete
  rw [if_neg hnotfull]

/-- The digit press that reaches capacity dispatches the confirmation
with the full buffer, clears the buffer and closes the sheet. -/
theorem pressDigit_completes (d : Char) (s : Panel)
    (hguard : (s.currentPassword.length : ℚ) < s.passwordLength)
    (hfull : ((s.currentPassword.push d).length : ℚ) = s.passwordLength)
    (hopen : s.isOpen = true) :
    pressDigit d s =
      ({ s with currentPassword := "", isOpen := false, isDragging := false,
                overlayOpacity := none, panelTransform := none },
       [Ev.paymentConfirm
          { method := mkConfirmMethod (domSelectedMethod s)
            methodData := domSelectedMethod s
            amount := amountRead s
            password := some (s.currentPassword.push d) },
        Ev.paymentClose]) := by
  unfold pressDigit
  rw [if_pos hguard]
  unfold checkPasswordComplete
  rw [if_pos hfull]
  unfold closePanel
  rw [if_neg (by simp [hopen])]
  rfl

/-- Running exactly the missing number of digit presses dispatches one
confirmation carrying the whole buffer, then the close notification. -/
theorem pressSeq_completes (L : ℕ) :
    ∀ (ds : List Char) (s : Panel),
      s.passwordLength = (L : ℚ) →
      s.isOpen = true →
      s.currentPassword.length + ds.length = L →
      ds ≠ [] →
      pressSeq ds s =
        ({ s with currentPassword := "", isOpen := false, isDragging := false,
                  overlayOpacity := none, panelTransform := none },
         [Ev.paymentConfirm
            { method := mkConfirmMethod (domSelectedMethod s)
              methodData := domSelectedMethod s
              amount := amountRead s
              password := some (ds.foldl String.push s.currentPassword) },
          Ev.paymentClose]) := by
  intro ds
  induction ds with
  | nil =>
    intro s _ _ _ hne
    exact absurd rfl hne
  | cons d rest ih =>
    intro s hpl hopen hlen _
    have hlt : s.currentPassword.length < L := by
      simp only [List.length_cons] at hlen
      omega
    have hguard : (s.currentPassword.length : ℚ) < s.passwordLength := by
      rw [hpl]
      exact_mod_cast hlt
    cases rest with
    | nil =>
      have hfull0 : s.currentPassword.length + 1 = L := by
        simpa using hlen
      have hfull : ((s.currentPassword.push d).length : ℚ) = s.passwordLength := by
        rw [hpl]
        push_cast [String.length_push]
        exact_mod_cast hfull0
      rw [pressSeq_cons, pressDigit_completes d s hguard hfull hopen]
      rfl
    | cons r rs =>
      have hnotfull : ((s.currentPassword.push d).length : ℚ) ≠ s.passwordLength := by
        rw [hpl]
        push_cast [String.length_push]
        intro hcontra
        have hn : s.currentPassword.length + 1 = L := by exact_mod_cast hcontra
        simp only [List.length_cons] at hlen
        omega
      rw [pressSeq_cons, pressDigit_below d s hguard hnotfull]
      rw [ih { s with currentPassword := s.currentPassword.push d } hpl hopen
            (by simp only [String.length_push, List.length_cons] at hlen ⊢; omega)
            (by simp)]
      rfl

/-- `close()` never touches the password buffer. -/
theorem closePanel_currentPassword (t : Panel) :
    (closePanel t).1.currentPassword = t.currentPassword := by
  unfold closePanel
  split_ifs <;> rfl

/-- C5: password auto-submit. With effective length `L`, starting from
an empty buffer on an open sheet, exactly `L` accepted digit presses
dispatch exactly one `payment-confirm` whose password string has length
`L`, after which the buffer is empty and the sheet is closed; a digit
press on a buffer already at (or beyond) capacity returns the state
unchanged with no event, and a press never pushes the buffer length
beyond `L`. -/
theorem password_auto_submit (L : ℕ) (ds : List Char) (d0 : Char) (s : Panel)
    (hpl : s.passwordLength = (L : ℚ)) (hL : 0 < L)
    (hempty : s.currentPassword = "") (hopen : s.isOpen = true)
    (hds : ds.length = L) :
    (pressSeq ds s).2 =
      [Ev.paymentConfirm
         { method := mkConfirmMethod (domSelectedMethod s)
           methodData := domSelectedMethod s
           amount := amountRead s
           password := some (ds.foldl String.push "") },
       Ev.paymentClose] ∧
    (ds.foldl String.push "").length = L ∧
    ((pressSeq ds s).2.countP fun e => e.isConfirm) = 1 ∧
    (pressSeq ds s).1.currentPassword = "" ∧
    (pressSeq ds s).1.isOpen = false ∧
    (∀ s2 : Panel, s2.passwordLength ≤ (s2.currentPassword.length : ℚ) →
       pressDigit d0 s2 = (s2, [])) ∧
    (∀ s2 : Panel, s2.passwordLength = (L : ℚ) → s2.currentPassword.length ≤ L →
       (pressDigit d0 s2).1.currentPassword.length ≤ L) := by
  have hne : ds ≠ [] := by
    intro hnil
    rw [hnil] at hds
    simp at hds
    omega
  have hmain := pressSeq_completes L ds s hpl hopen
    (by rw [hempty]; simpa using hds) hne
  rw [hmain]
  refine ⟨by rw [hempty], ?_, by simp [Ev.isConfirm], rfl, rfl, ?_, ?_⟩
  · rw [length_foldl_push, hds]
    simp
  · intro s2 h2
    unfold pressDigit
    rw [if_neg (not_lt.mpr h2)]
  · intro s2 h2 h3
    by_cases hg : (s2.currentPassword.length : ℚ) < s2.passwordLength
    · have hlen2 : s2.currentPassword.length < L := by
        rw [h2] at hg
        exact_mod_cast hg
      unfold pressDigit
      rw [if_pos hg]
      unfold checkPasswordComplete
      split_ifs with hc
      · rw [closePanel_currentPassword]
        simp
      · simp only [String.length_push]
        omega
    · unfold pressDigit
      rw [if_neg hg]
      exact h3

/-- Witness: four presses on a 4-digit pad from the concrete opened
panel dispatch exactly one confirmation, clear the buffer, close. -/
theorem password_auto_submit_witness :
    c5Panel.passwordLength = ((4 : ℕ) : ℚ) ∧ (0 : ℕ) < 4 ∧
    c5Panel.currentPassword = "" ∧ c5Panel.isOpen = true ∧
    (['1', '2', '3', '4'] : List Char).length = 4 ∧
    ((pressSeq ['1', '2', '3', '4'] c5Panel).2.countP fun e => e.isConfirm) = 1 ∧
    (pressSeq ['1', '2', '3', '4'] c5Panel).1.currentPassword = "" ∧
    (pressSeq ['1', '2', '3', '4'] c5Panel).1.isOpen = false := by
  have hpl : c5Panel.passwordLength = ((4 : ℕ) : ℚ) := by
    norm_num [c5Panel, openPanel, setPasswordLength, echoIntAttr_fresh4,
      initPanel, DEFAULT_CONFIG]
  have h := password_auto_submit 4 ['1', '2', '3', '4'] '9' c5Panel hpl
    (by norm_num) rfl rfl rfl
  exact ⟨hpl, by norm_num, rfl, rfl, rfl, h.2.2.1, h.2.2.2.1, h.2.2.2.2.1⟩

/-! ## C6: the payment-confirm payload -/

/-- Evaluation of the API calls producing `c6Panel`. -/
theorem c6Panel_eval : c6Panel = c6PanelExplicit := by
  norm_num [c6Panel, c6PanelExplicit, pressSeq, pressDigit, checkPasswordComplete,
    openPanel, setPaymentMethods, setEnablePassword, setPasswordLength, echoIntAttr_fresh4,
    renderSelectedRow, initPanel, DEFAULT_CONFIG,
    DEFAULT_PAYMENT_METHODS, c6Record, c6Mapping, selectFirst]
  decide

/-- C6 counterexample: with the active mapping `valueField = "id"` and
the selected record `{id: 7, name: "X"}` (which `getSelectedMethod`
returns), the `payment-confirm` dispatched on password completion
carries `method = null` and `methodData = null`, not the identity
`"7"` resolved through the mapping and not the record:
`setPaymentMethods` re-renders the rows before resetting the
selection, so no row carries the `selected` class, and the confirm
handler resolves the method from that DOM row — never from
`this.selectedMethod` and never through the field mapping. -/
theorem confirm_method_ignores_field_mapping :
    c6Panel.fieldMapping = c6Mapping ∧
    c6Panel.selectedMethod = some c6Record ∧
    getSelectedMethod c6Panel = some c6Record ∧
    resolveIdentityStr c6Mapping c6Record 0 = "7" ∧
    (pressDigit '4' c6Panel).2 =
      [Ev.paymentConfirm
         { method := ConfirmMethod.nullv
           methodData := none
           amount := "0.00"
           password := some "1234" },
       Ev.paymentClose] ∧
    ConfirmMethod.nullv ≠ ConfirmMethod.val (JVal.str "7") ∧
    ConfirmMethod.nullv ≠ ConfirmMethod.val (JVal.num 7) ∧
    ConfirmMethod.nullv ≠ ConfirmMethod.record c6Record ∧
    (none : Option PaymentMethod) ≠ some c6Record := by
  refine ⟨by rw [c6Panel_eval]; rfl, by rw [c6Panel_eval]; rfl,
    by rw [c6Panel_eval]; rfl, ?_, ?_, by simp, by simp, by simp, by simp⟩
  · norm_num [resolveIdentityStr, getField, c6Mapping, c6Record, JVal.truthy,
      JVal.toDisplayString]
    decide
  · rw [c6Panel_eval]
    have hlen : ("123" : String).length = 3 := rfl
    norm_num [pressDigit, checkPasswordComplete, closePanel, domSelectedMethod,
      c6PanelExplicit, initPanel, DEFAULT_CONFIG, mkConfirmMethod, amountRead,
      c6Record, JVal.truthy, hlen, List.lookup]
    decide

/-- `digitChar` always yields a decimal digit character. -/
theorem digitChar_isDigit (n : ℕ) : (digitChar n).isDigit = true := by
  have h : n % 10 < 10 := Nat.mod_lt _ (by norm_num)
  unfold digitChar
  set k := n % 10 with hk
  interval_cases k <;> decide

/-- `toFixed(2)` output always ends in a dot and two digits. -/
theorem isTwoDecimal_toFixed2 (q : ℚ) : isTwoDecimal (toFixed2 q) :=
  ⟨(if ⌊q * 100 + 1 / 2⌋ < 0 then "-" else "")
      ++ toString (⌊q * 100 + 1 / 2⌋.natAbs / 100),
   digitChar (⌊q * 100 + 1 / 2⌋.natAbs % 100 / 10),
   digitChar (⌊q * 100 + 1 / 2⌋.natAbs % 100),
   rfl, digitChar_isDigit _, digitChar_isDigit _⟩

/-- The template's initial amount text is a two-decimal string. -/
theorem isTwoDecimal_init : isTwoDecimal initPanel.amountText :=
  ⟨"0", '0', '0', by decide, by decide, by decide⟩

/-- A two-decimal string is never empty. -/
theorem isTwoDecimal_ne_empty (t : String) (h : isTwoDecimal t) : t ≠ "" := by
  obtain ⟨p, c1, c2, rfl, -, -⟩ := h
  intro hcontra
  have h2 := congrArg String.length hcontra
  rw [String.length_append, String.length_append] at h2
  simp [String.length_mk] at h2

/-- On a two-decimal display the DOM fallback `|| '0.00'` is inert. -/
theorem amountRead_of_twoDecimal (s : Panel) (h : isTwoDecimal s.amountText) :
    amountRead s = s.amountText := by
  unfold amountRead
  rw [if_neg (by simp [isTwoDecimal_ne_empty _ h])]

/-- C6 (amended): every confirmation resolves its method from the row
the last render marked `selected`, not from `this.selectedMethod` and
not through the field mapping: `methodData` is that row's full record
(`null` when no row is marked, as after `setPaymentMethods` replaces
the list, which re-renders before resetting the selection), `method`
is the row record's literal `value` property when that property exists
and is truthy, the whole record otherwise, and `null` when no row is
marked; `amount` is the two-decimal display string and `password` is
present if and only if the confirmation came from password-mode
completion. -/
theorem confirm_payload_shape (s : Panel) (d : Char)
    (hopen : s.isOpen = true) (h2d : isTwoDecimal s.amountText)
    (hguard : (s.currentPassword.length : ℚ) < s.passwordLength)
    (hfull : ((s.currentPassword.push d).length : ℚ) = s.passwordLength) :
    (confirmBtnClick s).2 =
      [Ev.paymentConfirm
         { method := mkConfirmMethod (domSelectedMethod s)
           methodData := domSelectedMethod s
           amount := s.amountText
           password := none },
       Ev.paymentClose] ∧
    (pressDigit d s).2 =
      [Ev.paymentConfirm
         { method := mkConfirmMethod (domSelectedMethod s)
           methodData := domSelectedMethod s
           amount := s.amountText
           password := some (s.currentPassword.push d) },
       Ev.paymentClose] ∧
    (s.selectedRow = none →
        domSelectedMethod s = none ∧
        mkConfirmMethod (domSelectedMethod s) = ConfirmMethod.nullv) ∧
    mkConfirmMethod none = ConfirmMethod.nullv ∧
    (∀ (r : PaymentMethod) (v : JVal), List.lookup "value" r = some v → v.truthy = true →
        mkConfirmMethod (some r) = ConfirmMethod.val v) ∧
    (∀ (r : PaymentMethod) (v : JVal), List.lookup "value" r = some v → v.truthy = false →
        mkConfirmMethod (some r) = ConfirmMethod.record r) ∧
    (∀ r : PaymentMethod, List.lookup "value" r = none →
        mkConfirmMethod (some r) = ConfirmMethod.record r) ∧
    isTwoDecimal s.amountText ∧
    (∀ q : ℚ, isTwoDecimal (toFixed2 q)) ∧
    (∀ (q : ℚ) (s0 : Panel), (setAmount q s0).amountText = toFixed2 q) ∧
    isTwoDecimal initPanel.amountText := by
  refine ⟨?_, ?_, ?_, rfl, ?_, ?_, ?_, h2d, isTwoDecimal_toFixed2, fun _ _ => rfl,
          isTwoDecimal_init⟩
  · simp [confirmBtnClick, closePanel, hopen, amountRead_of_twoDecimal s h2d]
  · rw [pressDigit_completes d s hguard hfull hopen, amountRead_of_twoDecimal s h2d]
  · intro hrow
    have hd : domSelectedMethod s = none := by
      simp [domSelectedMethod, hrow]
    exact ⟨hd, by rw [hd]; rfl⟩
  · intro r v hv ht
    simp [mkConfirmMethod, hv, ht]
  · intro r v hv ht
    simp [mkConfirmMethod, hv, ht]
  · intro r hv
    simp [mkConfirmMethod, hv]

/-- Witness: both confirmation paths evaluated at the concrete panel. -/
theorem confirm_payload_shape_witness :
    c6Panel.isOpen = true ∧
    isTwoDecimal c6Panel.amountText ∧
    ((c6Panel.currentPassword.length : ℚ) < c6Panel.passwordLength) ∧
    ((c6Panel.currentPassword.push '4').length : ℚ) = c6Panel.passwordLength ∧
    (confirmBtnClick c6Panel).2 =
      [Ev.paymentConfirm
         { method := mkConfirmMethod (domSelectedMethod c6Panel)
           methodData := domSelectedMethod c6Panel
           amount := c6Panel.amountText
           password := none },
       Ev.paymentClose] ∧
    (pressDigit '4' c6Panel).2 =
      [Ev.paymentConfirm
         { method := mkConfirmMethod (domSelectedMethod c6Panel)
           methodData := domSelectedMethod c6Panel
           amount := c6Panel.amountText
           password := some (c6Panel.currentPassword.push '4') },
       Ev.paymentClose] := by
  have hopen : c6Panel.isOpen = true := by rw [c6Panel_eval]; rfl
  have h2d : isTwoDecimal c6Panel.amountText := by
    rw [c6Panel_eval]
    exact ⟨"0", '0', '0', by decide, by decide, by decide⟩
  have hlen : ("123" : String).length = 3 := rfl
  have hguard : (c6Panel.currentPassword.length : ℚ) < c6Panel.passwordLength := by
    rw [c6Panel_eval]
    norm_num [c6PanelExplicit, initPanel, DEFAULT_CONFIG, hlen]
  have hfull : ((c6Panel.currentPassword.push '4').length : ℚ) = c6Panel.passwordLength := by
    rw [c6Panel_eval]
    norm_num [c6PanelExplicit, initPanel, DEFAULT_CONFIG, hlen]
  have h := confirm_payload_shape c6Panel '4' hopen h2d hguard hfull
  exact ⟨hopen, h2d, hguard, hfull, h.1, h.2.1⟩

/-! ## C10: the selection is never null through the public interface -/

/-- Every public call preserves the registry invariant. -/
theorem applyOp_preserves_methods (s : Panel) (op : ApiOp) (h : MethodsInv s) :
    MethodsInv (applyOp s op) := by
  obtain ⟨h1, h2⟩ := h
  cases op with
  | openOp a =>
    show MethodsInv (openPanel a s)
    cases a <;> simp only [openPanel, selectFirst] <;> split_ifs <;>
      first
      | exact ⟨h1, h2⟩
      | exact ⟨by simp [DEFAULT_PAYMENT_METHODS],
              by simp [selectFirst, DEFAULT_PAYMENT_METHODS]⟩
  | closeOp =>
    show MethodsInv ((closePanel s).1)
    simp only [closePanel]
    split_ifs <;> exact ⟨h1, h2⟩
  | setAmountOp q =>
    show MethodsInv (setAmount q s)
    exact ⟨h1, h2⟩
  | setMethodsOp ms fm =>
    show MethodsInv (setPaymentMethods ms fm s)
    unfold setPaymentMethods
    cases ms with
    | none => exact ⟨by simp [DEFAULT_PAYMENT_METHODS], rfl⟩
    | some l =>
      dsimp only
      split_ifs with hl
      · exact ⟨by simp [DEFAULT_PAYMENT_METHODS], rfl⟩
      · exact ⟨by simpa using hl, rfl⟩
  | setConfigOp c =>
    show MethodsInv (setConfig c s)
    have hm : (setConfig c s).paymentMethods = s.paymentMethods := by
      simp only [setConfig, cfgAllowSwipe_untouched, cfgCloseThreshold_untouched,
    cfgCloseThresholdPercent_untouched, cfgVelocityThreshold_untouched, cfgOverlay_untouched,
    cfgEnablePassword_untouched, cfgPasswordLength_untouched, cfgHeaderTitle_untouched]
    have hs : (setConfig c s).selectedMethod = s.selectedMethod := by
      simp only [setConfig, cfgAllowSwipe_untouched, cfgCloseThreshold_untouched,
    cfgCloseThresholdPercent_untouched, cfgVelocityThreshold_untouched, cfgOverlay_untouched,
    cfgEnablePassword_untouched, cfgPasswordLength_untouched, cfgHeaderTitle_untouched]
    exact ⟨by rw [hm]; exact h1, by rw [hs, hm]; exact h2⟩
  | resetConfigOp =>
    show MethodsInv (setPaymentMethods none none (setConfig {} s))
    unfold setPaymentMethods
    exact ⟨by simp [DEFAULT_PAYMENT_METHODS], rfl⟩
  | setCloseThresholdOp q =>
    show MethodsInv (setCloseThreshold q s)
    exact ⟨h1, h2⟩
  | setCloseThresholdPercentOp q =>
    show MethodsInv (setCloseThresholdPercent q s)
    exact ⟨h1, h2⟩
  | setVelocityThresholdOp q =>
    show MethodsInv (setVelocityThreshold q s)
    exact ⟨h1, h2⟩
  | setCloseOnOverlayClickOp b =>
    show MethodsInv (setCloseOnOverlayClick b s)
    exact ⟨h1, h2⟩
  | setEnablePasswordOp b =>
    show MethodsInv (setEnablePassword b s)
    simp only [setEnablePassword]
    split_ifs <;> exact ⟨h1, h2⟩
  | setPasswordLengthOp q =>
    show MethodsInv (setPasswordLength q s)
    exact ⟨h1, h2⟩
  | setHeaderTitleOp t =>
    show MethodsInv (setHeaderTitle t s)
    exact ⟨h1, h2⟩
  | pressDigitOp d =>
    show MethodsInv ((pressDigit d s).1)
    simp only [pressDigit, checkPasswordComplete, closePanel]
    split_ifs <;> exact ⟨h1, h2⟩
  | pressDeleteOp =>
    show MethodsInv (pressDelete s)
    simp only [pressDelete]
    split_ifs <;> exact ⟨h1, h2⟩
  | confirmClickOp =>
    show MethodsInv ((confirmBtnClick s).1)
    simp only [confirmBtnClick, closePanel]
    split_ifs <;> exact ⟨h1, h2⟩
  | dragStartOp tgt y t =>
    show MethodsInv (handleDragStart tgt y t s)
    simp only [handleDragStart]
    split_ifs <;> exact ⟨h1, h2⟩
  | dragMoveOp ph y t =>
    show MethodsInv (handleDragMove ph y t s)
    simp only [handleDragMove]
    split_ifs <;> exact ⟨h1, h2⟩
  | dragEndOp ph =>
    show MethodsInv ((handleDragEnd ph s).1)
    simp only [handleDragEnd, closePanel]
    split_ifs <;> exact ⟨h1, h2⟩

/-- C10: `getSelectedMethod()` never returns `null` after construction.
Along every sequence of public calls from the constructor state the
method list stays non-empty and the selection stays on its first
element, so the `null` case is unreachable through the public
interface. -/
theorem getSelectedMethod_never_null (ops : List ApiOp) :
    (runOps ops initPanel).paymentMethods ≠ [] ∧
    getSelectedMethod (runOps ops initPanel)
      = (runOps ops initPanel).paymentMethods.head? ∧
    getSelectedMethod (runOps ops initPanel) ≠ none := by
  have hInit : MethodsInv initPanel :=
    ⟨by simp [initPanel, DEFAULT_PAYMENT_METHODS], rfl⟩
  have hRun : ∀ (l : List ApiOp) (t : Panel), MethodsInv t → MethodsInv (runOps l t) := by
    intro l
    induction l with
    | nil => intro t ht; exact ht
    | cons op rest ih => intro t ht; exact ih _ (applyOp_preserves_methods t op ht)
  obtain ⟨h1, h2⟩ := hRun ops initPanel hInit
  refine ⟨h1, h2, ?_⟩
  rw [show getSelectedMethod (runOps ops initPanel)
        = (runOps ops initPanel).selectedMethod from rfl, h2]
  cases hm : (runOps ops initPanel).paymentMethods with
  | nil => exact absurd hm h1
  | cons a l => simp
